import Mathlib

/-!
# CppActiveRecord: the record lifecycle of `ActiveRecord::Base<T>`

A shallow embedding of `include/active_record/base.h`: the lifecycle state
machine, lazy loading, SQL generation for insert / update / select-by-id and
record equality.  Member functions are state-passing functions: each takes the
record and the list of calls made on the connection so far, and yields an
`Outcome` holding the value returned or the exception thrown, the record as the
call left it, and the extended call list.
-/

namespace ActiveRecord

/-! ## Typed values -/

/-- Modelled from the spec: the 64-bit floating-point payload of a value
(`double`); `attribute.h` is absent.  Only its identity matters to the record
lifecycle, so it is kept as its bit pattern. -/
structure Double where
  bits : Nat
deriving DecidableEq, Repr

/-- Modelled from the spec: the date payload of a value (`date.h` is absent),
kept as the text it was parsed from. -/
structure Date where
  text : String
deriving DecidableEq, Repr

/-- Modelled from the spec: `Attribute` (`attribute.h` is absent), the tagged
union over absent, 64-bit signed integer, text, floating point and date.  The
derived equality compares kind and payload; absent equals only absent. -/
inductive Attribute where
  | absent
  | integer (value : Int)
  | text (value : String)
  | floating_point (value : Double)
  | date (value : Date)
deriving DecidableEq, Repr

/-- The exceptions the record lifecycle can raise. -/
inductive ARError where
  /-- The exception `ActiveRecordException("Record not found")`, thrown by `load`. -/
  | record_not_found
  /-- The exception `ActiveRecordException("Instance not loaded")`, thrown by associations. -/
  | not_loaded
  /-- The stored kind differs from the kind a typed extraction asks for. -/
  | type_mismatch
  /-- A typed extraction was attempted on the absent value. -/
  | absent_value
  /-- The exception `ActiveRecordException("connection is NULL")`, thrown by `setup`. -/
  | connection_is_null
  /-- The exception `ActiveRecordException("set the table name when returning Table")`,
  thrown by `setup`. -/
  | table_name_not_set
  /-- The exception `ActiveRecordException("Unhandled data type: " + type)`, thrown by
  `Attribute::from_field`. -/
  | unhandled_data_type (declared : String)
deriving DecidableEq, Repr

namespace Attribute

/-- Modelled from the spec: `boost::get<int64_t>` on an `Attribute`; extraction
as a kind fails with a type mismatch when another kind is stored and with the
absent-value error when nothing is stored. -/
def get_integer : Attribute → Except ARError Int
  | integer v => .ok v
  | absent => .error .absent_value
  | _ => .error .type_mismatch

/-- Modelled from the spec: `boost::get<std::string>` on an `Attribute`. -/
def get_text : Attribute → Except ARError String
  | text v => .ok v
  | absent => .error .absent_value
  | _ => .error .type_mismatch

/-- Modelled from the spec: `boost::get<double>` on an `Attribute`. -/
def get_floating_point : Attribute → Except ARError Double
  | floating_point v => .ok v
  | absent => .error .absent_value
  | _ => .error .type_mismatch

/-- Modelled from the spec: `boost::get<Date>` on an `Attribute`. -/
def get_date : Attribute → Except ARError Date
  | date v => .ok v
  | absent => .error .absent_value
  | _ => .error .type_mismatch

/-- The kinds a typed getter can ask for. -/
inductive Kind where
  | integer | text | floating_point | date
deriving DecidableEq, Repr

/-- The kind of a stored value, `none` for the absent value. -/
def kind : Attribute → Option Kind
  | absent => none
  | integer _ => some .integer
  | text _ => some .text
  | floating_point _ => some .floating_point
  | date _ => some .date

end Attribute

/-- The type `AttributeList`: the ordered parameter list handed to the connection. -/
abbrev AttributeList := List Attribute

/-- The type `GenericAttributePairList`: the name/value pairs a record is built from. -/
abbrev GenericAttributePairList := List (String × Attribute)

/-! ## The attribute map -/

/-- The order of `std::string` keys: lexicographic on the characters. -/
def key_lt (a b : String) : Bool := decide (a.data < b.data)

theorem key_lt_trans {a b c : String} (h1 : key_lt a b = true) (h2 : key_lt b c = true) :
    key_lt a c = true := by
  unfold key_lt at *
  rw [decide_eq_true_iff] at *
  exact lt_trans h1 h2

theorem key_lt_irrefl (a : String) : key_lt a a = false := by
  unfold key_lt
  rw [decide_eq_false_iff_not]
  exact lt_irrefl _

theorem key_lt_of_not {a b : String} (h1 : key_lt a b = false) (h2 : a ≠ b) :
    key_lt b a = true := by
  unfold key_lt at *
  rw [decide_eq_false_iff_not] at h1
  rw [decide_eq_true_iff]
  rcases lt_trichotomy a.data b.data with h | h | h
  · exact absurd h h1
  · exact absurd (String.ext h) h2
  · exact h

/-- Insertion of a binding into a list of bindings kept in ascending key order:
an existing binding of the key is overwritten, a new key goes to its place. -/
def assign_entry (name : String) (value : Attribute) :
    List (String × Attribute) → List (String × Attribute)
  | [] => [(name, value)]
  | (k, v) :: rest =>
    if key_lt name k then (name, value) :: (k, v) :: rest
    else if name = k then (name, value) :: rest
    else (k, v) :: assign_entry name value rest

/-- Lookup of a key in a list of bindings. -/
def find_entry (name : String) : List (String × Attribute) → Option Attribute
  | [] => none
  | (k, v) :: rest => if name = k then some v else find_entry name rest

/-- The keys of a list of bindings are strictly ascending. -/
def Ascending (l : List (String × Attribute)) : Prop :=
  l.Pairwise (fun a b => key_lt a.1 b.1 = true)

theorem assign_entry_keys (name : String) (value : Attribute) (p : String × Attribute) :
    ∀ l : List (String × Attribute), p ∈ assign_entry name value l → p.1 = name ∨ p ∈ l
  | [], h => by
    simp only [assign_entry, List.mem_singleton] at h
    exact Or.inl (by rw [h])
  | (k, v) :: rest, h => by
    unfold assign_entry at h
    split at h
    · rcases List.mem_cons.1 h with h1 | h1
      · exact Or.inl (by rw [h1])
      · exact Or.inr h1
    · split at h
      · rcases List.mem_cons.1 h with h1 | h1
        · exact Or.inl (by rw [h1])
        · exact Or.inr (List.mem_cons_of_mem _ h1)
      · rcases List.mem_cons.1 h with h1 | h1
        · exact Or.inr (by rw [h1]; exact List.mem_cons_self _ _)
        · rcases assign_entry_keys name value p rest h1 with h2 | h2
          · exact Or.inl h2
          · exact Or.inr (List.mem_cons_of_mem _ h2)

theorem assign_entry_ascending (name : String) (value : Attribute) :
    ∀ l : List (String × Attribute), Ascending l → Ascending (assign_entry name value l)
  | [], _ => by simp [assign_entry, Ascending]
  | (k, v) :: rest, h => by
    have hk : ∀ p ∈ rest, key_lt k p.1 = true := (List.pairwise_cons.1 h).1
    have hrest : Ascending rest := (List.pairwise_cons.1 h).2
    unfold assign_entry
    split
    · rename_i hlt
      refine List.pairwise_cons.2 ⟨?_, h⟩
      intro p hp
      rcases List.mem_cons.1 hp with h1 | h1
      · rw [h1]; exact hlt
      · exact key_lt_trans hlt (hk p h1)
    · split
      · rename_i _ heq
        refine List.pairwise_cons.2 ⟨?_, hrest⟩
        intro p hp
        rw [heq]; exact hk p hp
      · rename_i hnlt hne
        refine List.pairwise_cons.2 ⟨?_, assign_entry_ascending name value rest hrest⟩
        intro p hp
        rcases assign_entry_keys name value p rest hp with h1 | h1
        · rw [h1]
          exact key_lt_of_not (by simpa using hnlt) hne
        · exact hk p h1

/-- Modelled from the spec: `AttributeHash` (`attribute.h` is absent), the
mapping from column name to value in which insertion order is irrelevant: one
binding per name, iterated in ascending name order. -/
structure AttributeHash where
  entries : List (String × Attribute)
  ordered : Ascending entries

namespace AttributeHash

/-- The default-constructed, empty map. -/
def empty : AttributeHash := ⟨[], List.Pairwise.nil⟩

/-- The `size()` of the map. -/
def size (m : AttributeHash) : Nat := m.entries.length

/-- The `find(name)` of the map: the bound value, `none` for `end()`. -/
def find (m : AttributeHash) (name : String) : Option Attribute :=
  find_entry name m.entries

/-- The assignment `m[name] = value`. -/
def assign (m : AttributeHash) (name : String) (value : Attribute) : AttributeHash :=
  ⟨assign_entry name value m.entries, assign_entry_ascending name value m.entries m.ordered⟩

/-- The map after the expression `m[name]`: a missing name is bound to the
default-constructed (absent) value, a present one is left alone. -/
def touch (m : AttributeHash) (name : String) : AttributeHash :=
  match m.find name with
  | some _ => m
  | none => m.assign name Attribute.absent

/-- The value the expression `m[name]` refers to. -/
def at_ (m : AttributeHash) (name : String) : Attribute :=
  match m.find name with
  | some v => v
  | none => Attribute.absent

end AttributeHash

theorem AttributeHash.ext_entries {a b : AttributeHash} (h : a.entries = b.entries) : a = b := by
  cases a; cases b; cases h; rfl

instance : DecidableEq AttributeHash := fun a b =>
  if h : a.entries = b.entries then isTrue (AttributeHash.ext_entries h)
  else isFalse (fun e => h (by rw [e]))

/-! ## Collaborators -/

/-- Modelled from the spec: `Table` (`table.h` is absent), the descriptor of a
mapped type: table name and primary key column name. -/
structure Table where
  table_name : String
  primary_key : String
deriving DecidableEq, Repr

/-- Modelled from the spec: `Row` (`row.h` is absent), the answer of a
single-row select, exposing `has_data()` and `attributes()`. -/
structure Row where
  has_data : Bool
  attributes : AttributeHash

/-- One call made on the connection, with its arguments. -/
inductive Call where
  | get_table (class_name : String)
  | set_table (class_name : String) (table : Table)
  | select_one (sql : String) (parameters : AttributeList)
  | insert (sql : String) (parameters : AttributeList)
  | execute (sql : String) (parameters : AttributeList)
deriving DecidableEq

namespace Call

/-- The call is a `select_one`. -/
def is_select_one : Call → Bool
  | select_one _ _ => true
  | _ => false

/-- The call is an `insert`. -/
def is_insert : Call → Bool
  | insert _ _ => true
  | _ => false

/-- The call is an `execute`. -/
def is_execute : Call → Bool
  | execute _ _ => true
  | _ => false

end Call

/-- Modelled from the spec: `Connection` (`connection.h` is absent), with the
operations and result types of the spec's external interface.  The store is
stateful, so every answer may depend on the calls made before it.  The registry
lookup is taken on a registered mapped type (setup has run), where it yields a
descriptor. -/
structure Connection where
  get_table : List Call → String → Table
  select_one : List Call → String → AttributeList → Row
  insert : List Call → String → AttributeList → Int
  execute : List Call → String → AttributeList → Bool

/-- The static members of `Base<T>` for one mapped type `T`: `T::class_name`
(set by `AR_DECLARE`) and the connection installed by `setup`. -/
structure Mapped where
  class_name : String
  connection_ : Connection

/-! ## The record -/

/-- The unsaved sentinel id, `ACTIVE_RECORD_UNSAVED`. -/
def ACTIVE_RECORD_UNSAVED : Int := -1

/-- The lifecycle states, `enum state { blank, prepared, unsaved, loaded }`. -/
inductive State where
  | blank | prepared | unsaved | loaded
deriving DecidableEq, Repr

/-- The enumerator value of a state, by which `<` and `>=` compare states. -/
def State.toNat : State → Nat
  | .blank => 0
  | .prepared => 1
  | .unsaved => 2
  | .loaded => 3

/-- The member variables of `Base<T>`. -/
structure Base where
  state_ : State
  attributes_ : AttributeHash
  id_ : Int
  primary_key_ : String
  table_name_ : String
  singular_name_ : String
deriving DecidableEq

/-- What a member function call leaves behind: the value returned or the
exception thrown, the record after the call, and the calls made on the
connection so far. -/
structure Outcome (α : Type) where
  result : Except ARError α
  self : Base
  log : List Call

/-- Sequencing of two steps on the same record: an exception of the first step
skips the second and keeps whatever the first step had done. -/
def Outcome.andThen {α β : Type} (o : Outcome α)
    (f : α → Base → List Call → Outcome β) : Outcome β :=
  match o.result with
  | .error e => ⟨.error e, o.self, o.log⟩
  | .ok a => f a o.self o.log

/-- The conversion `(int)` of a wider integer: reduction modulo 2^32 into the
signed 32-bit range. -/
def to_int (x : Int) : Int := (x + 2147483648) % 4294967296 - 2147483648

/-- The constructor `Base(int id = ACTIVE_RECORD_UNSAVED)`: a blank record holding the id. -/
def Base.from_id (id : Int) (log : List Call) : Outcome Unit :=
  ⟨.ok (), ⟨.blank, AttributeHash.empty, id, "", "", ""⟩, log⟩

/-- The member function `Base::id()`. -/
def Base.id (r : Base) : Int := r.id_

/-- The member function `Base::has_data()`. -/
def Base.has_data (r : Base) : Bool :=
  if r.attributes_.size > 0 then true else false

/-- The member function `Base::new_record()`. -/
def Base.new_record (r : Base) : Bool :=
  if r.state_ ≠ State.loaded then true else false

/-- The member function `Base::get(name)`: the bound value, the absent value for a missing name. -/
def Base.get (r : Base) (name : String) : Attribute :=
  match r.attributes_.find name with
  | none => Attribute.absent
  | some v => v

/-- The member function `Base::prepare()`.  The calls to `log` write to the debug log only. -/
def prepare (T : Mapped) (r : Base) (log : List Call) : Outcome Unit :=
  if r.state_.toNat ≥ State.prepared.toNat then ⟨.ok (), r, log⟩
  else if T.class_name.isEmpty then ⟨.ok (), r, log⟩
  else
    let t := T.connection_.get_table log T.class_name
    ⟨.ok (),
     { r with primary_key_ := t.primary_key, table_name_ := t.table_name,
              singular_name_ := String.mk (T.class_name.data.map Char.toLower),
              state_ := State.prepared },
     log ++ [Call.get_table T.class_name]⟩

/-- The member function `Base::ensure_prepared()`. -/
def ensure_prepared (T : Mapped) (r : Base) (log : List Call) : Outcome Unit :=
  if r.state_.toNat < State.prepared.toNat then prepare T r log
  else ⟨.ok (), r, log⟩

/-- The statement `load` sends: select by primary key, one placeholder. -/
def select_sql (r : Base) : String :=
  "SELECT * " ++ "FROM " ++ r.table_name_ ++ " " ++ "WHERE " ++ r.primary_key_ ++ " = ?"

/-- The member function `Base::load()`. -/
def load (T : Mapped) (r : Base) (log : List Call) : Outcome Bool :=
  let parameters : AttributeList := [Attribute.integer r.id]
  let row := T.connection_.select_one log (select_sql r) parameters
  let log1 := log ++ [Call.select_one (select_sql r) parameters]
  if row.has_data then
    ⟨.ok true, { r with attributes_ := row.attributes, state_ := State.loaded }, log1⟩
  else ⟨.error .record_not_found, r, log1⟩

/-- The member function `Base::ensure_loaded()`. -/
def ensure_loaded (T : Mapped) (r : Base) (log : List Call) : Outcome Unit :=
  (ensure_prepared T r log).andThen fun _ r1 log1 =>
    if r1.state_ = State.loaded then ⟨.ok (), r1, log1⟩
    else (load T r1 log1).andThen fun _ r2 log2 => ⟨.ok (), r2, log2⟩

/-- The member function `Base::load_unless_new()`. -/
def load_unless_new (T : Mapped) (r : Base) (log : List Call) : Outcome Unit :=
  (ensure_prepared T r log).andThen fun _ r1 log1 =>
    if r1.id = ACTIVE_RECORD_UNSAVED then ⟨.ok (), r1, log1⟩
    else ensure_loaded T r1 log1

/-- The member function `Base::init(attributes)`. -/
def init (T : Mapped) (attributes : GenericAttributePairList) (r : Base)
    (log : List Call) : Outcome Unit :=
  (ensure_prepared T r log).andThen fun _ r1 log1 =>
    let attrs := attributes.foldl (fun m a => m.assign a.1 a.2) r1.attributes_
    ⟨.ok (), { r1 with attributes_ := attrs, state_ := State.unsaved }, log1⟩

/-- The constructor `Base(const GenericAttributePairList& attributes)`. -/
def Base.from_attributes (T : Mapped) (attributes : GenericAttributePairList)
    (log : List Call) : Outcome Unit :=
  init T attributes ⟨.blank, AttributeHash.empty, ACTIVE_RECORD_UNSAVED, "", "", ""⟩ log

/-- The operator `Base::operator[](name)` read as a value: the record may be prepared and
loaded first, and a missing name gets bound to the absent value. -/
def operator_index (T : Mapped) (name : String) (r : Base) (log : List Call) :
    Outcome Attribute :=
  (load_unless_new T r log).andThen fun _ r1 log1 =>
    ⟨.ok (r1.attributes_.at_ name), { r1 with attributes_ := r1.attributes_.touch name }, log1⟩

/-- The assignment `record[name] = value` through `Base::operator[]`. -/
def operator_index_assign (T : Mapped) (name : String) (value : Attribute) (r : Base)
    (log : List Call) : Outcome Unit :=
  (load_unless_new T r log).andThen fun _ r1 log1 =>
    ⟨.ok (), { r1 with attributes_ := r1.attributes_.assign name value }, log1⟩

/-- A typed getter: `load_unless_new()`, then the extraction `extract` applied to
`attributes_[name]`. -/
def typed_get {α : Type} (extract : Attribute → Except ARError α) (T : Mapped)
    (name : String) (r : Base) (log : List Call) : Outcome α :=
  (load_unless_new T r log).andThen fun _ r1 log1 =>
    ⟨extract (r1.attributes_.at_ name),
     { r1 with attributes_ := r1.attributes_.touch name }, log1⟩

/-- The member function `Base::integer(name)`. -/
def integer (T : Mapped) (name : String) (r : Base) (log : List Call) : Outcome Int :=
  typed_get Attribute.get_integer T name r log

/-- The member function `Base::text(name)`. -/
def text (T : Mapped) (name : String) (r : Base) (log : List Call) : Outcome String :=
  typed_get Attribute.get_text T name r log

/-- The member function `Base::floating_point(name)`. -/
def floating_point (T : Mapped) (name : String) (r : Base) (log : List Call) :
    Outcome Double :=
  typed_get Attribute.get_floating_point T name r log

/-- The member function `Base::date(name)`. -/
def date (T : Mapped) (name : String) (r : Base) (log : List Call) : Outcome Date :=
  typed_get Attribute.get_date T name r log

/-! ## Saving -/

/-- The local variables of the loop in `create`. -/
structure CreateLoop where
  columns_added : Bool
  columns : String
  placeholders : String
  parameters : AttributeList

/-- One pass of the loop in `create` over an entry of the map. -/
def create_step (primary_key_ : String) (s : CreateLoop) (entry : String × Attribute) :
    CreateLoop :=
  if entry.1 = primary_key_ then s
  else
    let columns := if s.columns_added then s.columns ++ ", " else s.columns
    let placeholders := if s.columns_added then s.placeholders ++ ", " else s.placeholders
    ⟨true, columns ++ entry.1, placeholders ++ "?", s.parameters ++ [entry.2]⟩

/-- The loop of `create`, run over the map in iteration order. -/
def create_loop (r : Base) : CreateLoop :=
  r.attributes_.entries.foldl (create_step r.primary_key_) ⟨false, "", "", []⟩

/-- The statement `create` builds. -/
def create_sql (r : Base) : String :=
  let s := create_loop r
  if s.columns_added then
    "INSERT INTO " ++ r.table_name_ ++ " " ++ "(" ++ s.columns ++ ") VALUES ("
      ++ s.placeholders ++ ")"
  else
    "INSERT INTO " ++ r.table_name_ ++ " " ++ "(" ++ r.primary_key_ ++ ") VALUES (NULL)"

/-- The member function `Base::create()`. -/
def create (T : Mapped) (r : Base) (log : List Call) : Outcome Bool :=
  let sql := create_sql r
  let parameters := (create_loop r).parameters
  let id := to_int (T.connection_.insert log sql parameters)
  ⟨.ok true, { r with id_ := id, state_ := State.loaded }, log ++ [Call.insert sql parameters]⟩

/-- The local variables of the loop in `update`. -/
structure UpdateLoop where
  columns_added : Bool
  columns : String
  parameters : AttributeList

/-- One pass of the loop in `update` over an entry of the map. -/
def update_step (primary_key_ : String) (s : UpdateLoop) (entry : String × Attribute) :
    UpdateLoop :=
  if entry.1 = primary_key_ then s
  else
    let columns := if s.columns_added then s.columns ++ ", " else s.columns
    ⟨true, columns ++ entry.1 ++ " = ?", s.parameters ++ [entry.2]⟩

/-- The loop of `update`, run over the map in iteration order. -/
def update_loop (r : Base) : UpdateLoop :=
  r.attributes_.entries.foldl (update_step r.primary_key_) ⟨false, "", []⟩

/-- The statement `update` builds. -/
def update_sql (r : Base) : String :=
  "UPDATE " ++ r.table_name_ ++ " " ++ "SET " ++ (update_loop r).columns ++ " "
    ++ "WHERE " ++ r.primary_key_ ++ " = ?;"

/-- The parameters `update` passes: the looped values, then the id. -/
def update_parameters (r : Base) : AttributeList :=
  (update_loop r).parameters ++ [Attribute.integer r.id]

/-- The member function `Base::update()`. -/
def update (T : Mapped) (r : Base) (log : List Call) : Outcome Bool :=
  (ensure_loaded T r log).andThen fun _ r1 log1 =>
    ⟨.ok (T.connection_.execute log1 (update_sql r1) (update_parameters r1)), r1,
     log1 ++ [Call.execute (update_sql r1) (update_parameters r1)]⟩

/-- The member function `Base::save()`. -/
def save (T : Mapped) (r : Base) (log : List Call) : Outcome Bool :=
  (ensure_prepared T r log).andThen fun _ r1 log1 =>
    if r1.id_ = ACTIVE_RECORD_UNSAVED then create T r1 log1 else update T r1 log1

/-! ## Equality -/

/-- The loop of `operator==` over the entries of the left map. -/
def eq_loop (other : Base) : List (String × Attribute) → Bool
  | [] => true
  | entry :: rest =>
    if entry.2 ≠ other.get entry.1 then false else eq_loop other rest

/-- The operator `Base::operator==(other)`. -/
def operator_eq (r other : Base) : Bool :=
  if r.id ≠ other.id then false
  else if r.state_ ≠ other.state_ then false
  else if r.attributes_.size ≠ other.attributes_.size then false
  else eq_loop other r.attributes_.entries

/-! ## Reference forms of the generated statements -/

/-- The entries the loops of `create` and `update` do not skip. -/
def kept (primary_key_ : String) (l : List (String × Attribute)) : List (String × Attribute) :=
  l.filter fun a => a.1 ≠ primary_key_

/-- The names of the map other than the primary key column, in iteration order. -/
def columns_of (r : Base) : List String :=
  (kept r.primary_key_ r.attributes_.entries).map Prod.fst

/-- The values bound to `columns_of`, in the same order. -/
def values_of (r : Base) : AttributeList :=
  (kept r.primary_key_ r.attributes_.entries).map Prod.snd

/-- The calls preparation makes on the connection: one registry lookup for a
blank record of a mapped type with a non-empty class name, none otherwise. -/
def prepare_calls (T : Mapped) (r : Base) : List Call :=
  if r.state_ = State.blank ∧ T.class_name.isEmpty = false then [Call.get_table T.class_name]
  else []

/-- The insert statement as the specification words it: the listed columns and
one `?` per column, or the primary key set to NULL when no column is left. -/
def insert_statement (table primary_key : String) (columns : List String) : String :=
  if columns = [] then "INSERT INTO " ++ table ++ " (" ++ primary_key ++ ") VALUES (NULL)"
  else "INSERT INTO " ++ table ++ " (" ++ ", ".intercalate columns ++ ") VALUES ("
    ++ ", ".intercalate (List.replicate columns.length "?") ++ ")"

/-- The update statement as the specification words it: every column set to a
placeholder, and a trailing WHERE clause on the primary key. -/
def update_statement (table primary_key : String) (columns : List String) : String :=
  "UPDATE " ++ table ++ " SET " ++ ", ".intercalate (columns.map fun c => c ++ " = ?")
    ++ " WHERE " ++ primary_key ++ " = ?;"

/-- The select-by-id statement as the specification words it. -/
def select_statement (table primary_key : String) : String :=
  "SELECT * FROM " ++ table ++ " WHERE " ++ primary_key ++ " = ?"

/-! ## Concrete collaborators used in the examples -/

/-- A table descriptor: table `people`, primary key `id`. -/
def people : Table := ⟨"people", "id"⟩

/-- A connection answering every insert with `new_id`, every execute with
`flag` and every select with `row`. -/
def fixed_connection (new_id : Int) (flag : Bool) (row : Row) : Connection :=
  ⟨fun _ _ => people, fun _ _ _ => row, fun _ _ _ => new_id, fun _ _ _ => flag⟩

/-- The row of a select that found nothing. -/
def no_row : Row := ⟨false, AttributeHash.empty⟩

/-- The mapped type `Person` over a fixed connection. -/
def Person (new_id : Int) (flag : Bool) (row : Row) : Mapped :=
  ⟨"Person", fixed_connection new_id flag row⟩

/-- The record `Person({name: "Alice", age: 30})` as its constructor leaves it. -/
def alice : Base :=
  (Base.from_attributes (Person 7 true no_row)
    [("name", Attribute.text "Alice"), ("age", Attribute.integer 30)] []).self

/-- A loaded `Person` record with id 42 holding `{name: "Bob"}`. -/
def bob : Base :=
  ⟨State.loaded, AttributeHash.empty.assign "name" (Attribute.text "Bob"), 42, "id", "people",
   "person"⟩

/-- The record `Person(42)` as its constructor leaves it. -/
def record42 : Base := (Base.from_id 42 []).self

/-- The call threw the record-not-found error and left the record with the
attribute map and id of `r`, and not loaded. -/
def not_found_leaving {α : Type} (o : Outcome α) (r : Base) : Prop :=
  o.result = .error .record_not_found ∧ o.self.attributes_ = r.attributes_ ∧
    o.self.id = r.id ∧ o.self.new_record = true

/-- The row of a select that found `{name: "Bob"}`. -/
def row_bob : Row := ⟨true, AttributeHash.empty.assign "name" (Attribute.text "Bob")⟩

/-- The number of `select_one` calls a member function call added to the calls
`log` made before it. -/
def selects_issued {α : Type} (o : Outcome α) (log : List Call) : Nat :=
  (o.log.drop log.length).countP Call.is_select_one

/-- The call left the record loaded unless it threw the record-not-found error. -/
def loaded_unless_not_found {α : Type} (o : Outcome α) : Prop :=
  o.result ≠ .error .record_not_found → o.self.state_ = State.loaded

/-- The record `Person(42)` after `init({name: "x"})`: it keeps the id 42 and
is unsaved. -/
def record42_init : Base :=
  (init (Person 7 true row_bob) [("name", Attribute.text "x")] record42 []).self

/-- The record needs no preparation and no load before an access: it is loaded,
or it holds the sentinel id and is past the blank state. -/
def settled (r : Base) : Prop :=
  r.state_ = State.loaded ∨ (r.id = ACTIVE_RECORD_UNSAVED ∧ r.state_ ≠ State.blank)

/-! ## Associations -/

/-- Modelled from the spec: `Query<T1>` (`query.h` is absent), the query run
against the target type's table with a filter and its parameter: `all` returns
every matching record, `first` the first match, each with the calls the query
made on the connection. -/
structure Query where
  all : List Call → String → AttributeList → List Base × List Call
  first : List Call → String → AttributeList → Base × List Call

/-- The member function `Base::has_many<T1>()`, with `T1::class_name` and the query
over `T1` as parameters. -/
def has_many (T : Mapped) (T1_class_name : String) (query : Query) (r : Base)
    (log : List Call) : Outcome (List Base) :=
  if r.state_.toNat < State.loaded.toNat then ⟨.error .not_loaded, r, log⟩
  else
    let _t1 := T.connection_.get_table log T1_class_name
    let log1 := log ++ [Call.get_table T1_class_name]
    let found := query.all log1 (r.singular_name_ ++ "_id = ?") [Attribute.integer r.id]
    ⟨.ok found.1, r, log1 ++ found.2⟩

/-- The member function `Base::belongs_to<T1>()`, with `T1::class_name` and the query
over `T1` as parameters. -/
def belongs_to (T : Mapped) (T1_class_name : String) (query : Query) (r : Base)
    (log : List Call) : Outcome Base :=
  if r.state_.toNat < State.loaded.toNat then ⟨.error .not_loaded, r, log⟩
  else
    let t1 := T.connection_.get_table log T1_class_name
    let log1 := log ++ [Call.get_table T1_class_name]
    let found := query.first log1 (t1.primary_key ++ " = ?") [Attribute.integer r.id]
    ⟨.ok found.1, r, log1 ++ found.2⟩

/-! ## Setup -/

/-- What a call of the static `setup` leaves behind: the exception thrown if
any, the static `connection_` and the calls made on the connection so far. -/
structure SetupOutcome where
  result : Except ARError Unit
  connection_ : Option Connection
  log : List Call

/-- The static member function `Base::setup(connection)`, with `T::class_name`, the
descriptor function `T::table` of the mapped type and the `connection_` installed
before as parameters; `none` is the NULL pointer. -/
def setup (class_name : String) (table : Connection → Table) (installed : Option Connection)
    (connection : Option Connection) (log : List Call) : SetupOutcome :=
  match connection with
  | none => ⟨.error .connection_is_null, installed, log⟩
  | some c =>
    let td := table c
    if td.table_name.isEmpty then ⟨.error .table_name_not_set, some c, log⟩
    else ⟨.ok (), some c, log ++ [Call.set_table class_name td]⟩

/-- The call is a `set_table`. -/
def Call.is_set_table : Call → Bool
  | Call.set_table _ _ => true
  | _ => false

/-- The call is a `get_table`. -/
def Call.is_get_table : Call → Bool
  | Call.get_table _ => true
  | _ => false

/-- The error is one of the configuration errors of `setup`. -/
def ARError.is_configuration : ARError → Bool
  | .connection_is_null => true
  | .table_name_not_set => true
  | _ => false

/-! ## Row decoding -/

/-- What the SQLite statement gives for column `i` of the current row: the
declared type (`sqlite3_column_decltype`, `none` for a null pointer), the text
(`sqlite3_column_text`, `none` for a null pointer), and the integer and
floating-point readings (`sqlite3_column_int64`, `sqlite3_column_double`). -/
structure Field where
  column_decltype : Option String
  column_text : Option String
  column_int64 : Int
  column_double : Double

/-- The test `strcasecmp(a, b) == 0`: equal up to the case of the letters. -/
def strcasecmp_eq (a b : String) : Bool :=
  a.data.map Char.toLower = b.data.map Char.toLower

/-- Modelled from the spec: `Date::parse` (`date.h` is absent), the date value of
a cell text. -/
def Date.parse (value : String) : Date := ⟨value⟩

/-- The function `Attribute::from_field(pStmt, i)`. -/
def Attribute.from_field (f : Field) : Except ARError Attribute :=
  match f.column_decltype with
  | none =>
    match f.column_text with
    | none => .ok Attribute.absent
    | some value => .ok (Attribute.text value)
  | some declared =>
    if strcasecmp_eq declared "INTEGER" then .ok (Attribute.integer f.column_int64)
    else if strcasecmp_eq declared "FLOAT" then .ok (Attribute.floating_point f.column_double)
    else if strcasecmp_eq declared "TEXT" then
      match f.column_text with
      | none => .ok Attribute.absent
      | some value => .ok (Attribute.text value)
    else if strcasecmp_eq declared "DATE" then
      match f.column_text with
      | none => .ok Attribute.absent
      | some value => .ok (Attribute.date (Date.parse value))
    else .error (.unhandled_data_type declared)

/-- The loop of the constructor `Row::Row(pStmt)` over the columns, each given by
its name and its field; a throw of the decoder leaves the loop. -/
def row_loop : List (String × Field) → AttributeHash → Except ARError AttributeHash
  | [], attributes_ => .ok attributes_
  | (name, f) :: rest, attributes_ =>
    match Attribute.from_field f with
    | .error e => .error e
    | .ok value => row_loop rest (attributes_.assign name value)

/-- The attribute map the constructor `Row::Row(pStmt)` builds. -/
def Row.from_statement (columns : List (String × Field)) : Except ARError AttributeHash :=
  row_loop columns AttributeHash.empty

/-- The declared type is, up to letter case, one of the four the decoder knows. -/
def known_type (declared : String) : Bool :=
  strcasecmp_eq declared "INTEGER" || strcasecmp_eq declared "FLOAT" ||
    strcasecmp_eq declared "TEXT" || strcasecmp_eq declared "DATE"

/-! ## Sequences of operations on one instance -/

/-- The public operations that go through preparation. -/
inductive Operation where
  | init (attributes : GenericAttributePairList)
  | save
  | read (name : String)
  | assign (name : String) (value : Attribute)
  | integer (name : String)
  | text (name : String)
  | floating_point (name : String)
  | date (name : String)

/-- One operation on a record: the record and the calls it leaves, whether it
returned or threw. -/
def Operation.run (T : Mapped) (op : Operation) (r : Base) (log : List Call) :
    Base × List Call :=
  match op with
  | .init attributes => ((ActiveRecord.init T attributes r log).self,
      (ActiveRecord.init T attributes r log).log)
  | .save => ((ActiveRecord.save T r log).self, (ActiveRecord.save T r log).log)
  | .read name => ((operator_index T name r log).self, (operator_index T name r log).log)
  | .assign name value => ((operator_index_assign T name value r log).self,
      (operator_index_assign T name value r log).log)
  | .integer name => ((ActiveRecord.integer T name r log).self,
      (ActiveRecord.integer T name r log).log)
  | .text name => ((ActiveRecord.text T name r log).self, (ActiveRecord.text T name r log).log)
  | .floating_point name => ((ActiveRecord.floating_point T name r log).self,
      (ActiveRecord.floating_point T name r log).log)
  | .date name => ((ActiveRecord.date T name r log).self, (ActiveRecord.date T name r log).log)

/-- A sequence of operations on one record, in order. -/
def run_all (T : Mapped) : List Operation → Base → List Call → Base × List Call
  | [], r, log => (r, log)
  | op :: rest, r, log => run_all T rest (op.run T r log).1 (op.run T r log).2

/-- The number of registry lookups (`get_table`) among the calls. -/
def registry_lookups (log : List Call) : Nat := log.countP Call.is_get_table

/-- The value the record's map gets for a name from `init`: the last value
supplied for the name, the previous binding when none is supplied. -/
def overridden (previous : AttributeHash) (attributes : GenericAttributePairList)
    (name : String) : Option Attribute :=
  match attributes.reverse.find? fun a => a.1 = name with
  | some a => some a.2
  | none => previous.find name

/-- The number of `?` characters in a statement. -/
def placeholders (sql : String) : Nat := sql.data.count '?'

/-- The mapped type `Person` declared with an empty class name. -/
def Nameless : Mapped := ⟨"", fixed_connection 7 true no_row⟩

/-- The default-constructed record `Person()`. -/
def fresh : Base := (Base.from_id ACTIVE_RECORD_UNSAVED []).self

/-- A step from record `r` and calls `log` to record `r1` and calls `log1` has
made the registry lookup that preparing `r` takes and no other, and has left a
record that needs none. -/
def tracks (T : Mapped) (r : Base) (log : List Call) (r1 : Base) (log1 : List Call) : Prop :=
  registry_lookups log1 = registry_lookups log + registry_lookups (prepare_calls T r) ∧
    prepare_calls T r1 = []

/-- An unsaved record holding `{x: absent}`. -/
def only_x : Base :=
  (Base.from_attributes (Person 7 true no_row) [("x", Attribute.absent)] []).self

/-- An unsaved record holding `{y: 5}`. -/
def only_y : Base :=
  (Base.from_attributes (Person 7 true no_row) [("y", Attribute.integer 5)] []).self

/-- The record `load` leaves when the row has data: the map is the row's map
and the state is loaded. -/
def after_load (r : Base) (row : Row) : Base :=
  { r with attributes_ := row.attributes, state_ := State.loaded }

/-- The row the select of `load` is answered with, for a record whose
preparation starts from the calls `log`. -/
def fetched (T : Mapped) (r : Base) (log : List Call) : Row :=
  T.connection_.select_one (ensure_prepared T r log).log
    (select_sql (ensure_prepared T r log).self) [Attribute.integer r.id]

/-! ## Preparation -/

theorem prepare_result (T : Mapped) (r : Base) (log : List Call) :
    (prepare T r log).result = .ok () := by
  unfold prepare
  split
  · rfl
  · split <;> rfl

theorem prepare_id (T : Mapped) (r : Base) (log : List Call) :
    (prepare T r log).self.id_ = r.id_ := by
  unfold prepare
  split
  · rfl
  · split <;> rfl

theorem prepare_attributes (T : Mapped) (r : Base) (log : List Call) :
    (prepare T r log).self.attributes_ = r.attributes_ := by
  unfold prepare
  split
  · rfl
  · split <;> rfl

theorem ensure_prepared_result (T : Mapped) (r : Base) (log : List Call) :
    (ensure_prepared T r log).result = .ok () := by
  unfold ensure_prepared
  split
  · exact prepare_result T r log
  · rfl

theorem ensure_prepared_id (T : Mapped) (r : Base) (log : List Call) :
    (ensure_prepared T r log).self.id_ = r.id_ := by
  unfold ensure_prepared
  split
  · exact prepare_id T r log
  · rfl

theorem ensure_prepared_attributes (T : Mapped) (r : Base) (log : List Call) :
    (ensure_prepared T r log).self.attributes_ = r.attributes_ := by
  unfold ensure_prepared
  split
  · exact prepare_attributes T r log
  · rfl

theorem ensure_prepared_of_not_blank (T : Mapped) (r : Base) (log : List Call)
    (h : r.state_ ≠ State.blank) : ensure_prepared T r log = ⟨.ok (), r, log⟩ := by
  unfold ensure_prepared
  have : ¬ r.state_.toNat < State.prepared.toNat := by
    cases hs : r.state_ <;> simp_all [State.toNat]
  rw [if_neg this]

/-- Preparation leaves the state alone or moves a blank record to prepared. -/
theorem ensure_prepared_state (T : Mapped) (r : Base) (log : List Call) :
    (ensure_prepared T r log).self.state_ = r.state_ ∨
      (r.state_ = State.blank ∧ (ensure_prepared T r log).self.state_ = State.prepared) := by
  unfold ensure_prepared
  split
  · rename_i h
    have hb : r.state_ = State.blank := by
      cases hs : r.state_ <;> simp_all [State.toNat]
    unfold prepare
    split
    · exact Or.inl rfl
    · split
      · exact Or.inl rfl
      · exact Or.inr ⟨hb, rfl⟩
  · exact Or.inl rfl

/-- Sequencing after a step that returned normally runs the continuation. -/
theorem Outcome.andThen_ok {α β : Type} (o : Outcome α) (a : α)
    (f : α → Base → List Call → Outcome β) (h : o.result = .ok a) :
    o.andThen f = f a o.self o.log := by
  unfold Outcome.andThen
  rw [h]

/-- Sequencing after a step that threw keeps the exception and the state. -/
theorem Outcome.andThen_error {α β : Type} (o : Outcome α) (e : ARError)
    (f : α → Base → List Call → Outcome β) (h : o.result = .error e) :
    o.andThen f = ⟨.error e, o.self, o.log⟩ := by
  unfold Outcome.andThen
  rw [h]

theorem init_eq (T : Mapped) (attributes : GenericAttributePairList) (r : Base)
    (log : List Call) :
    init T attributes r log =
      ⟨.ok (),
       { (ensure_prepared T r log).self with
          attributes_ := attributes.foldl (fun m a => m.assign a.1 a.2)
            (ensure_prepared T r log).self.attributes_,
          state_ := State.unsaved },
       (ensure_prepared T r log).log⟩ := by
  unfold init
  rw [Outcome.andThen_ok _ () _ (ensure_prepared_result T r log)]

theorem save_eq (T : Mapped) (r : Base) (log : List Call) :
    save T r log =
      if (ensure_prepared T r log).self.id_ = ACTIVE_RECORD_UNSAVED then
        create T (ensure_prepared T r log).self (ensure_prepared T r log).log
      else update T (ensure_prepared T r log).self (ensure_prepared T r log).log := by
  unfold save
  rw [Outcome.andThen_ok _ () _ (ensure_prepared_result T r log)]

/-- A save of a record holding the sentinel id is a `create` of the prepared
record. -/
theorem save_unsaved (T : Mapped) (r : Base) (log : List Call)
    (h : r.id_ = ACTIVE_RECORD_UNSAVED) :
    save T r log = create T (ensure_prepared T r log).self (ensure_prepared T r log).log := by
  rw [save_eq, if_pos (by rw [ensure_prepared_id]; exact h)]

/-! ## The loops of `create` and `update` -/

theorem kept_cons_skip (pk : String) (e : String × Attribute) (l : List (String × Attribute))
    (h : e.1 = pk) : kept pk (e :: l) = kept pk l := by
  simp [kept, h]

theorem kept_cons_keep (pk : String) (e : String × Attribute) (l : List (String × Attribute))
    (h : e.1 ≠ pk) : kept pk (e :: l) = e :: kept pk l := by
  simp [kept, h]

theorem create_fold_started (pk : String) :
    ∀ (l : List (String × Attribute)) (c p : String) (ps : AttributeList),
      l.foldl (create_step pk) ⟨true, c, p, ps⟩ =
        ⟨true, String.intercalate.go c ", " ((kept pk l).map Prod.fst),
         String.intercalate.go p ", " (List.replicate (kept pk l).length "?"),
         ps ++ (kept pk l).map Prod.snd⟩
  | [], c, p, ps => by simp [kept, String.intercalate.go]
  | e :: l, c, p, ps => by
    by_cases h : e.1 = pk
    · rw [kept_cons_skip pk e l h, List.foldl_cons]
      have : create_step pk ⟨true, c, p, ps⟩ e = ⟨true, c, p, ps⟩ := by
        simp [create_step, h]
      rw [this]
      exact create_fold_started pk l c p ps
    · rw [kept_cons_keep pk e l h, List.foldl_cons]
      have : create_step pk ⟨true, c, p, ps⟩ e =
          ⟨true, c ++ ", " ++ e.1, p ++ ", " ++ "?", ps ++ [e.2]⟩ := by
        simp [create_step, h]
      rw [this, create_fold_started pk l]
      simp [String.intercalate.go, List.replicate_succ]

theorem create_fold_fresh (pk : String) :
    ∀ l : List (String × Attribute),
      l.foldl (create_step pk) ⟨false, "", "", []⟩ =
        if kept pk l = [] then ⟨false, "", "", []⟩
        else ⟨true, ", ".intercalate ((kept pk l).map Prod.fst),
              ", ".intercalate (List.replicate (kept pk l).length "?"),
              (kept pk l).map Prod.snd⟩
  | [] => by simp [kept]
  | e :: l => by
    by_cases h : e.1 = pk
    · rw [kept_cons_skip pk e l h, List.foldl_cons]
      have : create_step pk ⟨false, "", "", []⟩ e = ⟨false, "", "", []⟩ := by
        simp [create_step, h]
      rw [this]
      exact create_fold_fresh pk l
    · rw [kept_cons_keep pk e l h, List.foldl_cons]
      have : create_step pk ⟨false, "", "", []⟩ e = ⟨true, e.1, "?", [e.2]⟩ := by
        simp [create_step, h]
      rw [this, create_fold_started pk l]
      simp [String.intercalate, List.replicate_succ]


theorem create_loop_eq (r : Base) :
    create_loop r =
      if columns_of r = [] then ⟨false, "", "", []⟩
      else ⟨true, ", ".intercalate (columns_of r),
            ", ".intercalate (List.replicate (columns_of r).length "?"), values_of r⟩ := by
  unfold create_loop columns_of values_of
  rw [create_fold_fresh]
  simp

theorem create_parameters (r : Base) : (create_loop r).parameters = values_of r := by
  rw [create_loop_eq]
  split
  · rename_i h
    unfold columns_of at h
    unfold values_of
    rw [List.map_eq_nil_iff] at h
    rw [h]
    rfl
  · rfl

theorem create_sql_eq (r : Base) :
    create_sql r = insert_statement r.table_name_ r.primary_key_ (columns_of r) := by
  unfold create_sql insert_statement
  rw [create_loop_eq]
  by_cases h : columns_of r = []
  · simp [h, String.append_assoc]
  · simp [h, String.append_assoc]

theorem ensure_prepared_log (T : Mapped) (r : Base) (log : List Call) :
    (ensure_prepared T r log).log = log ++ prepare_calls T r := by
  unfold ensure_prepared prepare prepare_calls
  cases hs : r.state_ <;> cases hc : T.class_name.isEmpty <;> simp [State.toNat]

theorem prepare_calls_no_insert (T : Mapped) (r : Base) :
    (prepare_calls T r).countP Call.is_insert = 0 := by
  unfold prepare_calls
  split <;> simp [Call.is_insert]

theorem prepare_calls_no_execute (T : Mapped) (r : Base) :
    (prepare_calls T r).countP Call.is_execute = 0 := by
  unfold prepare_calls
  split <;> simp [Call.is_execute]

theorem prepare_calls_no_select (T : Mapped) (r : Base) :
    (prepare_calls T r).countP Call.is_select_one = 0 := by
  unfold prepare_calls
  split <;> simp [Call.is_select_one]

theorem update_fold_started (pk : String) :
    ∀ (l : List (String × Attribute)) (c : String) (ps : AttributeList),
      l.foldl (update_step pk) ⟨true, c, ps⟩ =
        ⟨true, String.intercalate.go c ", " ((kept pk l).map fun a => a.1 ++ " = ?"),
         ps ++ (kept pk l).map Prod.snd⟩
  | [], c, ps => by simp [kept, String.intercalate.go]
  | e :: l, c, ps => by
    by_cases h : e.1 = pk
    · rw [kept_cons_skip pk e l h, List.foldl_cons]
      have : update_step pk ⟨true, c, ps⟩ e = ⟨true, c, ps⟩ := by
        simp [update_step, h]
      rw [this]
      exact update_fold_started pk l c ps
    · rw [kept_cons_keep pk e l h, List.foldl_cons]
      have : update_step pk ⟨true, c, ps⟩ e =
          ⟨true, c ++ ", " ++ (e.1 ++ " = ?"), ps ++ [e.2]⟩ := by
        simp [update_step, h, String.append_assoc]
      rw [this, update_fold_started pk l]
      simp [String.intercalate.go]

theorem update_fold_fresh (pk : String) :
    ∀ l : List (String × Attribute),
      l.foldl (update_step pk) ⟨false, "", []⟩ =
        ⟨!(kept pk l).isEmpty, ", ".intercalate ((kept pk l).map fun a => a.1 ++ " = ?"),
         (kept pk l).map Prod.snd⟩
  | [] => by simp [kept, String.intercalate]
  | e :: l => by
    by_cases h : e.1 = pk
    · rw [kept_cons_skip pk e l h, List.foldl_cons]
      have : update_step pk ⟨false, "", []⟩ e = ⟨false, "", []⟩ := by
        simp [update_step, h]
      rw [this]
      exact update_fold_fresh pk l
    · rw [kept_cons_keep pk e l h, List.foldl_cons]
      have : update_step pk ⟨false, "", []⟩ e = ⟨true, e.1 ++ " = ?", [e.2]⟩ := by
        simp [update_step, h]
      rw [this, update_fold_started pk l]
      simp [String.intercalate]

theorem update_sql_eq (r : Base) :
    update_sql r = update_statement r.table_name_ r.primary_key_ (columns_of r) := by
  unfold update_sql update_statement update_loop columns_of
  rw [update_fold_fresh]
  simp [String.append_assoc, List.map_map, Function.comp_def]

theorem update_parameters_eq (r : Base) :
    update_parameters r = values_of r ++ [Attribute.integer r.id] := by
  unfold update_parameters update_loop values_of
  rw [update_fold_fresh]

theorem ensure_loaded_of_loaded (T : Mapped) (r : Base) (log : List Call)
    (h : r.state_ = State.loaded) : ensure_loaded T r log = ⟨.ok (), r, log⟩ := by
  unfold ensure_loaded
  rw [ensure_prepared_of_not_blank T r log (by rw [h]; decide)]
  simp [Outcome.andThen, h]

/-! ## Lazy loading -/

theorem ensure_prepared_eta (T : Mapped) (r : Base) (log : List Call) :
    ensure_prepared T r log =
      ⟨.ok (), (ensure_prepared T r log).self, (ensure_prepared T r log).log⟩ := by
  have h := ensure_prepared_result T r log
  cases ho : ensure_prepared T r log with
  | mk res self lg =>
    rw [ho] at h
    simp only at h
    rw [h]

/-- Preparing a record a second time changes nothing and calls nothing. -/
theorem ensure_prepared_idem (T : Mapped) (r : Base) (log : List Call) :
    ensure_prepared T (ensure_prepared T r log).self (ensure_prepared T r log).log =
      ⟨.ok (), (ensure_prepared T r log).self, (ensure_prepared T r log).log⟩ := by
  unfold ensure_prepared prepare
  cases hs : r.state_ <;> cases hc : T.class_name.isEmpty <;> simp [State.toNat, hs, hc]

theorem ensure_prepared_loaded_iff (T : Mapped) (r : Base) (log : List Call) :
    (ensure_prepared T r log).self.state_ = State.loaded ↔ r.state_ = State.loaded := by
  rcases ensure_prepared_state T r log with h | ⟨h1, h2⟩
  · rw [h]
  · rw [h1, h2]
    decide

/-- What `load_unless_new` comes to: preparation alone for a record holding the
sentinel id or already loaded, preparation and a load otherwise. -/
theorem load_unless_new_eq (T : Mapped) (r : Base) (log : List Call) :
    load_unless_new T r log =
      if r.id_ = ACTIVE_RECORD_UNSAVED ∨ r.state_ = State.loaded then
        ⟨.ok (), (ensure_prepared T r log).self, (ensure_prepared T r log).log⟩
      else
        (load T (ensure_prepared T r log).self (ensure_prepared T r log).log).andThen
          fun _ r2 log2 => ⟨.ok (), r2, log2⟩ := by
  unfold load_unless_new
  rw [Outcome.andThen_ok _ () _ (ensure_prepared_result T r log)]
  have hid : (ensure_prepared T r log).self.id = r.id_ := ensure_prepared_id T r log
  by_cases h1 : r.id_ = ACTIVE_RECORD_UNSAVED
  · rw [if_pos (Or.inl h1), if_pos (by rw [hid]; exact h1)]
  · rw [if_neg (by rw [hid]; exact h1)]
    unfold ensure_loaded
    rw [ensure_prepared_idem, Outcome.andThen_ok _ () _ rfl]
    dsimp only
    by_cases h2 : r.state_ = State.loaded
    · rw [if_pos (Or.inr h2), if_pos ((ensure_prepared_loaded_iff T r log).2 h2)]
    · rw [if_neg (fun h => h2 ((ensure_prepared_loaded_iff T r log).1 h)),
        if_neg (fun h => h.elim h1 h2)]

/-- The outcome of `load_unless_new` on a record that has an assigned id and is
not loaded, when the select finds no row. -/
theorem load_unless_new_not_found (T : Mapped) (r : Base) (log : List Call)
    (hid : r.id ≠ ACTIVE_RECORD_UNSAVED) (hs : r.state_ ≠ State.loaded)
    (hrow : (T.connection_.select_one (ensure_prepared T r log).log
      (select_sql (ensure_prepared T r log).self) [Attribute.integer r.id]).has_data = false) :
    load_unless_new T r log =
      ⟨.error .record_not_found, (ensure_prepared T r log).self,
       (ensure_prepared T r log).log ++
        [Call.select_one (select_sql (ensure_prepared T r log).self)
          [Attribute.integer r.id]]⟩ := by
  have hid1 : (ensure_prepared T r log).self.id = r.id := ensure_prepared_id T r log
  rw [load_unless_new_eq, if_neg (by
    intro h
    rcases h with h | h
    · exact hid h
    · exact hs h)]
  unfold load
  dsimp only
  rw [hid1, hrow]
  rfl

/-- The outcome of `load_unless_new` on a record that has an assigned id and is
not loaded, when the select finds a row. -/
theorem load_unless_new_found (T : Mapped) (r : Base) (log : List Call)
    (hid : r.id ≠ ACTIVE_RECORD_UNSAVED) (hs : r.state_ ≠ State.loaded)
    (hrow : (T.connection_.select_one (ensure_prepared T r log).log
      (select_sql (ensure_prepared T r log).self) [Attribute.integer r.id]).has_data = true) :
    load_unless_new T r log =
      ⟨.ok (),
       { (ensure_prepared T r log).self with
          attributes_ := (T.connection_.select_one (ensure_prepared T r log).log
            (select_sql (ensure_prepared T r log).self) [Attribute.integer r.id]).attributes,
          state_ := State.loaded },
       (ensure_prepared T r log).log ++
        [Call.select_one (select_sql (ensure_prepared T r log).self)
          [Attribute.integer r.id]]⟩ := by
  have hid1 : (ensure_prepared T r log).self.id = r.id := ensure_prepared_id T r log
  rw [load_unless_new_eq, if_neg (by
    intro h
    rcases h with h | h
    · exact hid h
    · exact hs h)]
  unfold load
  dsimp only
  rw [hid1, hrow]
  rfl

theorem select_sql_eq (r : Base) :
    select_sql r = select_statement r.table_name_ r.primary_key_ := by
  unfold select_sql select_statement
  simp [String.append_assoc]

/-- What `ensure_loaded` comes to: preparation alone for a loaded record,
preparation and a load otherwise. -/
theorem ensure_loaded_eq (T : Mapped) (r : Base) (log : List Call) :
    ensure_loaded T r log =
      if r.state_ = State.loaded then
        ⟨.ok (), (ensure_prepared T r log).self, (ensure_prepared T r log).log⟩
      else
        (load T (ensure_prepared T r log).self (ensure_prepared T r log).log).andThen
          fun _ r2 log2 => ⟨.ok (), r2, log2⟩ := by
  unfold ensure_loaded
  rw [Outcome.andThen_ok _ () _ (ensure_prepared_result T r log)]
  by_cases h2 : r.state_ = State.loaded
  · rw [if_pos h2, if_pos ((ensure_prepared_loaded_iff T r log).2 h2)]
  · rw [if_neg h2, if_neg (fun h => h2 ((ensure_prepared_loaded_iff T r log).1 h))]

theorem load_log (T : Mapped) (r : Base) (log : List Call) :
    (load T r log).log = log ++ [Call.select_one (select_sql r) [Attribute.integer r.id]] := by
  unfold load
  dsimp only
  split <;> rfl

theorem load_unless_new_log (T : Mapped) (r : Base) (log : List Call) :
    (load_unless_new T r log).log = log ++ prepare_calls T r ++
      (if r.id_ ≠ ACTIVE_RECORD_UNSAVED ∧ r.state_ ≠ State.loaded then
        [Call.select_one (select_sql (ensure_prepared T r log).self) [Attribute.integer r.id]]
       else []) := by
  have hid1 : (ensure_prepared T r log).self.id = r.id := ensure_prepared_id T r log
  rw [load_unless_new_eq]
  by_cases h : r.id_ = ACTIVE_RECORD_UNSAVED ∨ r.state_ = State.loaded
  · rw [if_pos h, if_neg (by
      intro h1
      rcases h with h | h
      · exact h1.1 h
      · exact h1.2 h)]
    dsimp only
    rw [ensure_prepared_log, List.append_nil]
  · rw [if_neg h, if_pos ⟨fun h1 => h (Or.inl h1), fun h1 => h (Or.inr h1)⟩]
    unfold Outcome.andThen
    split <;> (dsimp only; rw [load_log, ensure_prepared_log, hid1])

/-- The function `load_unless_new` returns or throws the record-not-found error; when it
returns on a record with an assigned id, the record is loaded. -/
theorem load_unless_new_result (T : Mapped) (r : Base) (log : List Call) :
    ((load_unless_new T r log).result = .ok () ∧
      (r.id_ ≠ ACTIVE_RECORD_UNSAVED → (load_unless_new T r log).self.state_ = State.loaded)) ∨
    (load_unless_new T r log).result = .error .record_not_found := by
  rw [load_unless_new_eq]
  by_cases h : r.id_ = ACTIVE_RECORD_UNSAVED ∨ r.state_ = State.loaded
  · rw [if_pos h]
    refine Or.inl ⟨rfl, fun hid => ?_⟩
    rcases h with h | h
    · exact absurd h hid
    · exact (ensure_prepared_loaded_iff T r log).2 h
  · rw [if_neg h]
    unfold load
    dsimp only
    split
    · exact Or.inl ⟨rfl, fun _ => rfl⟩
    · exact Or.inr rfl

/-- An access is `load_unless_new` followed by a step on the in-memory map,
which adds no call on the connection. -/
theorem access_log {α : Type} (T : Mapped) (r : Base) (log : List Call)
    (res : Base → Except ARError α) (upd : Base → AttributeHash) :
    ((load_unless_new T r log).andThen fun _ r1 log1 =>
        ⟨res r1, { r1 with attributes_ := upd r1 }, log1⟩).log
      = (load_unless_new T r log).log := by
  unfold Outcome.andThen
  split <;> rfl

theorem access_selects {α : Type} (T : Mapped) (r : Base) (log : List Call)
    (res : Base → Except ARError α) (upd : Base → AttributeHash) :
    selects_issued ((load_unless_new T r log).andThen fun _ r1 log1 =>
        ⟨res r1, { r1 with attributes_ := upd r1 }, log1⟩) log
      = if r.id ≠ ACTIVE_RECORD_UNSAVED ∧ r.state_ ≠ State.loaded then 1 else 0 := by
  unfold selects_issued
  rw [access_log, load_unless_new_log, List.append_assoc, List.drop_left, List.countP_append,
    prepare_calls_no_select]
  unfold Base.id
  split <;> simp [Call.is_select_one]

/-- An access of a record with an assigned id leaves it loaded unless the load
threw. -/
theorem access_loaded {α : Type} (T : Mapped) (r : Base) (log : List Call)
    (res : Base → Except ARError α) (upd : Base → AttributeHash)
    (hid : r.id ≠ ACTIVE_RECORD_UNSAVED) :
    loaded_unless_not_found ((load_unless_new T r log).andThen fun _ r1 log1 =>
        (⟨res r1, { r1 with attributes_ := upd r1 }, log1⟩ : Outcome α)) := by
  intro hne
  rcases load_unless_new_result T r log with ⟨hok, hst⟩ | herr
  · rw [Outcome.andThen_ok _ () _ hok]
    exact hst hid
  · rw [Outcome.andThen_error _ _ _ herr] at hne
    exact absurd rfl hne

/-- An access of a record holding the sentinel id works on the prepared record
as it stands. -/
theorem access_of_unsaved {α : Type} (T : Mapped) (r : Base) (log : List Call)
    (f : Unit → Base → List Call → Outcome α) (hid : r.id = ACTIVE_RECORD_UNSAVED) :
    (load_unless_new T r log).andThen f
      = f () (ensure_prepared T r log).self (ensure_prepared T r log).log := by
  rw [load_unless_new_eq,
    if_pos (Or.inl (show r.id_ = ACTIVE_RECORD_UNSAVED from hid)), Outcome.andThen_ok _ () _ rfl]

/-! ## Equality and the attribute map -/

theorem eq_loop_iff (other : Base) :
    ∀ l : List (String × Attribute),
      eq_loop other l = true ↔ ∀ e ∈ l, e.2 = other.get e.1
  | [] => by simp [eq_loop]
  | e :: l => by
    unfold eq_loop
    by_cases h : e.2 = other.get e.1
    · simp [h, eq_loop_iff other l]
    · simp [h]

theorem operator_eq_iff (a b : Base) :
    operator_eq a b = true ↔
      a.id = b.id ∧ a.state_ = b.state_ ∧ a.attributes_.size = b.attributes_.size ∧
        ∀ e ∈ a.attributes_.entries, e.2 = b.get e.1 := by
  unfold operator_eq
  by_cases h1 : a.id = b.id
  · by_cases h2 : a.state_ = b.state_
    · by_cases h3 : a.attributes_.size = b.attributes_.size
      · simp [h1, h2, h3, eq_loop_iff]
      · simp [h1, h2, h3]
    · simp [h1, h2]
  · simp [h1]

theorem find_entry_of_mem (k : String) (v : Attribute) :
    ∀ l : List (String × Attribute), Ascending l → (k, v) ∈ l → find_entry k l = some v
  | [], _, h => by simp at h
  | (k1, v1) :: rest, hasc, h => by
    have hk : ∀ p ∈ rest, key_lt k1 p.1 = true := (List.pairwise_cons.1 hasc).1
    unfold find_entry
    by_cases hkk : k = k1
    · rw [if_pos hkk]
      rcases List.mem_cons.1 h with h1 | h1
      · rw [(Prod.mk.inj h1).2]
      · have := hk (k, v) h1
        rw [hkk] at this
        rw [key_lt_irrefl] at this
        exact absurd this (by decide)
    · rw [if_neg hkk]
      rcases List.mem_cons.1 h with h1 | h1
      · exact absurd (Prod.mk.inj h1).1 hkk
      · exact find_entry_of_mem k v rest (List.pairwise_cons.1 hasc).2 h1

theorem mem_of_find_entry (k : String) (v : Attribute) :
    ∀ l : List (String × Attribute), find_entry k l = some v → (k, v) ∈ l
  | [], h => by simp [find_entry] at h
  | (k1, v1) :: rest, h => by
    unfold find_entry at h
    by_cases hkk : k = k1
    · rw [if_pos hkk] at h
      rw [hkk, ← Option.some.inj h]
      exact List.mem_cons_self _ _
    · rw [if_neg hkk] at h
      exact List.mem_cons_of_mem _ (mem_of_find_entry k v rest h)

theorem find_assign_entry_same (k : String) (v : Attribute) :
    ∀ l : List (String × Attribute), find_entry k (assign_entry k v l) = some v
  | [] => by simp [assign_entry, find_entry]
  | (k1, v1) :: rest => by
    unfold assign_entry
    split
    · simp [find_entry]
    · split
      · simp [find_entry]
      · rename_i _ hne
        unfold find_entry
        rw [if_neg hne]
        exact find_assign_entry_same k v rest

theorem find_entry_none_of_lt (k : String) :
    ∀ l : List (String × Attribute), (∀ p ∈ l, key_lt k p.1 = true) → find_entry k l = none
  | [], _ => rfl
  | (k1, v1) :: rest, h => by
    unfold find_entry
    have h1 : key_lt k k1 = true := h (k1, v1) (List.mem_cons_self _ _)
    have hne : k ≠ k1 := by
      intro hkk
      rw [hkk, key_lt_irrefl] at h1
      exact absurd h1 (by decide)
    rw [if_neg hne]
    exact find_entry_none_of_lt k rest (fun p hp => h p (List.mem_cons_of_mem _ hp))

theorem length_assign_entry (k : String) (v : Attribute) :
    ∀ l : List (String × Attribute), Ascending l →
      (assign_entry k v l).length = if find_entry k l = none then l.length + 1 else l.length
  | [], _ => by simp [assign_entry, find_entry]
  | (k1, v1) :: rest, hasc => by
    have hk : ∀ p ∈ rest, key_lt k1 p.1 = true := (List.pairwise_cons.1 hasc).1
    unfold assign_entry
    split
    · rename_i hlt
      have hnone : find_entry k ((k1, v1) :: rest) = none := by
        apply find_entry_none_of_lt
        intro p hp
        rcases List.mem_cons.1 hp with h1 | h1
        · rw [h1]; exact hlt
        · exact key_lt_trans hlt (hk p h1)
      rw [if_pos hnone]
      rfl
    · split
      · rename_i _ heq
        simp [find_entry, heq]
      · rename_i _ hne
        have ih := length_assign_entry k v rest (List.pairwise_cons.1 hasc).2
        simp only [List.length_cons, ih, find_entry, if_neg hne]
        split <;> rfl

/-- The record a loaded record becomes through the assignment `record[name] =
value`: no preparation and no load take place. -/
theorem operator_index_assign_of_loaded (T : Mapped) (name : String) (value : Attribute)
    (r : Base) (log : List Call) (hs : r.state_ = State.loaded) :
    operator_index_assign T name value r log =
      ⟨.ok (), { r with attributes_ := r.attributes_.assign name value }, log⟩ := by
  unfold operator_index_assign
  rw [load_unless_new_eq, if_pos (Or.inr hs),
    ensure_prepared_of_not_blank T r log (by rw [hs]; decide), Outcome.andThen_ok _ () _ rfl]

theorem operator_eq_self (r : Base) : operator_eq r r = true := by
  rw [operator_eq_iff]
  refine ⟨rfl, rfl, rfl, fun e he => ?_⟩
  unfold Base.get AttributeHash.find
  rw [find_entry_of_mem e.1 e.2 r.attributes_.entries r.attributes_.ordered he]

theorem operator_eq_false_of_entry (a b : Base) (e : String × Attribute)
    (he : e ∈ a.attributes_.entries) (hne : e.2 ≠ b.get e.1) : operator_eq a b = false := by
  rw [← Bool.not_eq_true, operator_eq_iff]
  intro h
  exact hne (h.2.2.2 e he)

theorem operator_eq_false_of_size (a b : Base)
    (hne : a.attributes_.size ≠ b.attributes_.size) : operator_eq a b = false := by
  rw [← Bool.not_eq_true, operator_eq_iff]
  intro h
  exact hne h.2.2.1

/-! ## Typed getters -/

theorem load_unless_new_of_settled (T : Mapped) (r : Base) (log : List Call) (h : settled r) :
    load_unless_new T r log = ⟨.ok (), r, log⟩ := by
  have hnb : r.state_ ≠ State.blank := by
    rcases h with h | h
    · rw [h]; decide
    · exact h.2
  have hc : r.id_ = ACTIVE_RECORD_UNSAVED ∨ r.state_ = State.loaded := by
    rcases h with h | h
    · exact Or.inr h
    · exact Or.inl h.1
  rw [load_unless_new_eq, if_pos hc, ensure_prepared_of_not_blank T r log hnb]

/-- A typed getter on a settled record holding a value under the name: the
extraction decides the result, and the record and the calls are as before. -/
theorem typed_get_of_settled {α : Type} (extract : Attribute → Except ARError α) (T : Mapped)
    (name : String) (r : Base) (log : List Call) (v : Attribute) (h : settled r)
    (hv : r.attributes_.find name = some v) :
    typed_get extract T name r log = ⟨extract v, r, log⟩ := by
  unfold typed_get
  rw [load_unless_new_of_settled T r log h, Outcome.andThen_ok _ () _ rfl]
  unfold AttributeHash.at_ AttributeHash.touch
  rw [hv]

/-! ## Initialisation -/

theorem find_assign_entry_other (k name : String) (v : Attribute) (h : name ≠ k) :
    ∀ l : List (String × Attribute), find_entry name (assign_entry k v l) = find_entry name l
  | [] => by simp [assign_entry, find_entry, h]
  | (k1, v1) :: rest => by
    unfold assign_entry
    split
    · simp [find_entry, h]
    · split
      · rename_i _ heq
        simp [find_entry, h, ← heq]
      · by_cases h1 : name = k1
        · simp [find_entry, h1]
        · simp [find_entry, h1, find_assign_entry_other k name v h rest]

theorem find_assign (m : AttributeHash) (k name : String) (v : Attribute) :
    (m.assign k v).find name = if k = name then some v else m.find name := by
  unfold AttributeHash.find AttributeHash.assign
  by_cases h : k = name
  · rw [if_pos h, ← h]
    exact find_assign_entry_same k v m.entries
  · rw [if_neg h]
    exact find_assign_entry_other k name v (fun e => h e.symm) m.entries

theorem find_foldl_assign (m : AttributeHash) (name : String) :
    ∀ attributes : GenericAttributePairList,
      (attributes.foldl (fun m a => m.assign a.1 a.2) m).find name
        = overridden m attributes name := by
  intro attributes
  induction attributes using List.reverseRecOn with
  | nil => simp [overridden]
  | append_singleton l a ih =>
    rw [List.foldl_append, List.foldl_cons, List.foldl_nil, find_assign]
    unfold overridden at ih ⊢
    rw [List.reverse_append, List.reverse_singleton, List.singleton_append, List.find?_cons]
    by_cases h : a.1 = name
    · simp [h]
    · simp only [h, if_false, decide_False]
      exact ih

/-! ## Registry lookups -/

theorem registry_lookups_append (a b : List Call) :
    registry_lookups (a ++ b) = registry_lookups a + registry_lookups b := by
  unfold registry_lookups
  rw [List.countP_append]

theorem prepare_calls_of_state (T : Mapped) (r r1 : Base)
    (h : r1.state_ = r.state_ ∨ r1.state_ ≠ State.blank) (hr : prepare_calls T r = []) :
    prepare_calls T r1 = [] := by
  unfold prepare_calls at hr ⊢
  by_cases hc : r1.state_ = State.blank ∧ T.class_name.isEmpty = false
  · rcases h with h | h
    · rw [if_pos (by rw [← h]; exact hc)] at hr
      exact absurd hr (by simp)
    · exact absurd hc.1 h
  · rw [if_neg hc]

theorem prepare_calls_after (T : Mapped) (r : Base) (log : List Call) :
    prepare_calls T (ensure_prepared T r log).self = [] := by
  unfold prepare_calls ensure_prepared prepare
  cases hs : r.state_ <;> cases hc : T.class_name.isEmpty <;> simp [State.toNat, hs, hc]

theorem tracks_ensure_prepared (T : Mapped) (r : Base) (log : List Call) :
    tracks T r log (ensure_prepared T r log).self (ensure_prepared T r log).log :=
  ⟨by rw [ensure_prepared_log, registry_lookups_append], prepare_calls_after T r log⟩

/-- A step after preparation that looks nothing up and does not return the
record to the blank state keeps the account of lookups. -/
theorem tracks_extend (T : Mapped) (r : Base) (log : List Call) (p r1 : Base)
    (plog log1 : List Call) (h : tracks T r log p plog)
    (hl : registry_lookups log1 = registry_lookups plog)
    (hs : r1.state_ = p.state_ ∨ r1.state_ ≠ State.blank) : tracks T r log r1 log1 :=
  ⟨by rw [hl]; exact h.1, prepare_calls_of_state T p r1 hs h.2⟩

theorem load_quiet (T : Mapped) (r : Base) (log : List Call) :
    registry_lookups (load T r log).log = registry_lookups log ∧
      ((load T r log).self.state_ = r.state_ ∨ (load T r log).self.state_ ≠ State.blank) := by
  constructor
  · rw [load_log, registry_lookups_append]
    rfl
  · unfold load
    dsimp only
    split
    · exact Or.inr (fun h => State.noConfusion h)
    · exact Or.inl rfl

theorem tracks_ensure_loaded (T : Mapped) (r : Base) (log : List Call) :
    tracks T r log (ensure_loaded T r log).self (ensure_loaded T r log).log := by
  have hp := tracks_ensure_prepared T r log
  have hq := load_quiet T (ensure_prepared T r log).self (ensure_prepared T r log).log
  rw [ensure_loaded_eq]
  split
  · exact hp
  · unfold Outcome.andThen
    split <;> exact tracks_extend T r log _ _ _ _ hp hq.1 hq.2

theorem tracks_load_unless_new (T : Mapped) (r : Base) (log : List Call) :
    tracks T r log (load_unless_new T r log).self (load_unless_new T r log).log := by
  have hp := tracks_ensure_prepared T r log
  have hq := load_quiet T (ensure_prepared T r log).self (ensure_prepared T r log).log
  rw [load_unless_new_eq]
  split
  · exact hp
  · unfold Outcome.andThen
    split <;> exact tracks_extend T r log _ _ _ _ hp hq.1 hq.2

theorem tracks_access {α : Type} (T : Mapped) (r : Base) (log : List Call)
    (res : Base → Except ARError α) (upd : Base → AttributeHash) :
    tracks T r log
      ((load_unless_new T r log).andThen fun _ r1 log1 =>
        (⟨res r1, { r1 with attributes_ := upd r1 }, log1⟩ : Outcome α)).self
      ((load_unless_new T r log).andThen fun _ r1 log1 =>
        (⟨res r1, { r1 with attributes_ := upd r1 }, log1⟩ : Outcome α)).log := by
  have hp := tracks_load_unless_new T r log
  unfold Outcome.andThen
  split
  · exact hp
  · exact tracks_extend T r log _ _ _ _ hp rfl (Or.inl rfl)

theorem tracks_init (T : Mapped) (attributes : GenericAttributePairList) (r : Base)
    (log : List Call) :
    tracks T r log (init T attributes r log).self (init T attributes r log).log := by
  rw [init_eq]
  exact tracks_extend T r log _ _ _ _ (tracks_ensure_prepared T r log) rfl
    (Or.inr (fun h => State.noConfusion h))

theorem tracks_update (T : Mapped) (r : Base) (log : List Call) :
    tracks T r log (update T r log).self (update T r log).log := by
  have hp := tracks_ensure_loaded T r log
  unfold update Outcome.andThen
  split
  · exact hp
  · refine tracks_extend T r log _ _ _ _ hp ?_ (Or.inl rfl)
    rw [registry_lookups_append]
    rfl

theorem tracks_save (T : Mapped) (r : Base) (log : List Call) :
    tracks T r log (save T r log).self (save T r log).log := by
  have hp := tracks_ensure_prepared T r log
  rw [save_eq]
  split
  · refine tracks_extend T r log _ _ _ _ hp ?_ (Or.inr (by simp [create]))
    unfold create
    dsimp only
    rw [registry_lookups_append]
    rfl
  · have hu := tracks_update T (ensure_prepared T r log).self (ensure_prepared T r log).log
    have h1 := hu.1
    rw [hp.2] at h1
    exact ⟨by rw [h1, hp.1]; rfl, hu.2⟩

theorem tracks_run (T : Mapped) (op : Operation) (r : Base) (log : List Call) :
    tracks T r log (op.run T r log).1 (op.run T r log).2 := by
  cases op with
  | init attributes => exact tracks_init T attributes r log
  | save => exact tracks_save T r log
  | read name => exact tracks_access T r log _ _
  | assign name value => exact tracks_access T r log _ _
  | integer name => exact tracks_access T r log _ _
  | text name => exact tracks_access T r log _ _
  | floating_point name => exact tracks_access T r log _ _
  | date name => exact tracks_access T r log _ _

theorem run_all_prepared (T : Mapped) :
    ∀ (ops : List Operation) (r : Base) (log : List Call), prepare_calls T r = [] →
      registry_lookups (run_all T ops r log).2 = registry_lookups log
  | [], _, _, _ => rfl
  | op :: rest, r, log, h => by
    have ht := tracks_run T op r log
    unfold run_all
    rw [run_all_prepared T rest _ _ ht.2, ht.1, h]
    rfl

/-! ## Associations and setup -/

theorem below_loaded_iff (r : Base) :
    r.state_.toNat < State.loaded.toNat ↔ r.state_ ≠ State.loaded := by
  cases r.state_ <;> simp [State.toNat]

/-- A declared type equal up to case to one name is not equal up to case to a
name that differs from it beyond case. -/
theorem strcasecmp_eq_exclusive (declared a b : String)
    (hab : a.data.map Char.toLower ≠ b.data.map Char.toLower)
    (ha : strcasecmp_eq declared a = true) : strcasecmp_eq declared b = false := by
  unfold strcasecmp_eq at ha ⊢
  rw [decide_eq_true_iff] at ha
  rw [decide_eq_false_iff_not, ha]
  exact hab

/-! ## Placeholders -/

theorem placeholders_append (a b : String) :
    placeholders (a ++ b) = placeholders a + placeholders b := by
  unfold placeholders
  rw [String.data_append, List.count_append]

theorem create_step_count (pk : String) (s : CreateLoop) (e : String × Attribute)
    (he : placeholders e.1 = 0)
    (h : placeholders s.placeholders = s.parameters.length ∧ placeholders s.columns = 0) :
    placeholders (create_step pk s e).placeholders = (create_step pk s e).parameters.length ∧
      placeholders (create_step pk s e).columns = 0 := by
  have hq : placeholders "?" = 1 := by decide
  have hc : placeholders ", " = 0 := by decide
  unfold create_step
  split
  · exact h
  · cases hadd : s.columns_added <;>
      simp [placeholders_append, h.1, h.2, he, hq, hc]

theorem create_fold_count (pk : String) :
    ∀ (l : List (String × Attribute)) (s : CreateLoop),
      (∀ e ∈ l, placeholders e.1 = 0) →
      (placeholders s.placeholders = s.parameters.length ∧ placeholders s.columns = 0) →
      placeholders (l.foldl (create_step pk) s).placeholders
          = (l.foldl (create_step pk) s).parameters.length ∧
        placeholders (l.foldl (create_step pk) s).columns = 0
  | [], _, _, h => h
  | e :: l, s, hn, h => by
    rw [List.foldl_cons]
    exact create_fold_count pk l _ (fun x hx => hn x (List.mem_cons_of_mem _ hx))
      (create_step_count pk s e (hn e (List.mem_cons_self _ _)) h)

theorem update_step_count (pk : String) (s : UpdateLoop) (e : String × Attribute)
    (he : placeholders e.1 = 0) (h : placeholders s.columns = s.parameters.length) :
    placeholders (update_step pk s e).columns = (update_step pk s e).parameters.length := by
  have hq : placeholders " = ?" = 1 := by decide
  have hc : placeholders ", " = 0 := by decide
  unfold update_step
  split
  · exact h
  · cases hadd : s.columns_added <;> simp [placeholders_append, h, he, hq, hc]

theorem update_fold_count (pk : String) :
    ∀ (l : List (String × Attribute)) (s : UpdateLoop),
      (∀ e ∈ l, placeholders e.1 = 0) →
      placeholders s.columns = s.parameters.length →
      placeholders (l.foldl (update_step pk) s).columns
        = (l.foldl (update_step pk) s).parameters.length
  | [], _, _, h => h
  | e :: l, s, hn, h => by
    rw [List.foldl_cons]
    exact update_fold_count pk l _ (fun x hx => hn x (List.mem_cons_of_mem _ hx))
      (update_step_count pk s e (hn e (List.mem_cons_self _ _)) h)

/-! ## Saving a record that is not loaded -/

/-- Preparation does not look at the attribute map. -/
theorem ensure_prepared_with_attributes (T : Mapped) (r : Base) (log : List Call)
    (m : AttributeHash) :
    ensure_prepared T { r with attributes_ := m } log =
      ⟨.ok (), { (ensure_prepared T r log).self with attributes_ := m },
       (ensure_prepared T r log).log⟩ := by
  unfold ensure_prepared prepare
  cases hs : r.state_ <;> cases hc : T.class_name.isEmpty <;> simp [State.toNat, hs, hc]

/-- A save of a record with an assigned id that is not loaded, when the select
finds the row: the load, then the update of the loaded record. -/
theorem save_of_not_loaded (T : Mapped) (r : Base) (log : List Call)
    (hid : r.id ≠ ACTIVE_RECORD_UNSAVED) (hs : r.state_ ≠ State.loaded)
    (hrow : (fetched T r log).has_data = true) :
    save T r log =
      ⟨.ok (T.connection_.execute
          ((ensure_prepared T r log).log ++
            [Call.select_one (select_sql (ensure_prepared T r log).self)
              [Attribute.integer r.id]])
          (update_sql (after_load (ensure_prepared T r log).self (fetched T r log)))
          (update_parameters (after_load (ensure_prepared T r log).self (fetched T r log)))),
       after_load (ensure_prepared T r log).self (fetched T r log),
       (ensure_prepared T r log).log ++
        [Call.select_one (select_sql (ensure_prepared T r log).self) [Attribute.integer r.id]] ++
        [Call.execute
          (update_sql (after_load (ensure_prepared T r log).self (fetched T r log)))
          (update_parameters (after_load (ensure_prepared T r log).self (fetched T r log)))]⟩ := by
  have hid1 : (ensure_prepared T r log).self.id = r.id := ensure_prepared_id T r log
  have hs1 : ¬ (ensure_prepared T r log).self.state_ = State.loaded :=
    fun h => hs ((ensure_prepared_loaded_iff T r log).1 h)
  rw [save_eq, if_neg (show ¬ (ensure_prepared T r log).self.id_ = ACTIVE_RECORD_UNSAVED by
    rw [ensure_prepared_id]; exact hid)]
  unfold update
  rw [ensure_loaded_eq, if_neg hs1, ensure_prepared_idem]
  unfold fetched at hrow
  unfold load
  dsimp only
  rw [hid1, hrow]
  rfl

/-- Preparation of a blank record: prepared when the class name is not empty,
still blank when it is. -/
theorem ensure_prepared_state_of_blank (T : Mapped) (r : Base) (log : List Call)
    (hs : r.state_ = State.blank) :
    (ensure_prepared T r log).self.state_
      = if T.class_name.isEmpty = true then State.blank else State.prepared := by
  unfold ensure_prepared prepare
  cases hc : T.class_name.isEmpty <;> simp [State.toNat, hs]

/-! ## Claims -/

/-- C1: a record constructed from an attribute map holds the unsaved sentinel
id and answers `new_record()` with true; a `save()` of it returns (with true),
and afterwards `new_record()` is false. -/
theorem C1_new_record_true_before_save_false_after (T : Mapped)
    (attributes : GenericAttributePairList) (log log1 : List Call) :
    (Base.from_attributes T attributes log).result = .ok () ∧
    (Base.from_attributes T attributes log).self.id = ACTIVE_RECORD_UNSAVED ∧
    (Base.from_attributes T attributes log).self.new_record = true ∧
    (save T (Base.from_attributes T attributes log).self log1).result = .ok true ∧
    (save T (Base.from_attributes T attributes log).self log1).self.new_record = false := by
  have hid : (Base.from_attributes T attributes log).self.id_ = ACTIVE_RECORD_UNSAVED := by
    unfold Base.from_attributes
    rw [init_eq]
    exact ensure_prepared_id T _ log
  refine ⟨?_, hid, ?_, ?_, ?_⟩
  · unfold Base.from_attributes
    rw [init_eq]
  · unfold Base.from_attributes
    rw [init_eq]
    rfl
  · rw [save_unsaved T _ log1 hid]
    rfl
  · rw [save_unsaved T _ log1 hid]
    rfl

/-- C2: a `save()` of a record holding the unsaved sentinel id adds to the calls
on the connection at most the registry lookup of preparation and then exactly
one `insert`, and no `execute`.  With `c1..cn` the names of the map other than
the primary key column, in iteration order, the statement is
`INSERT INTO <table> (c1, ..., cn) VALUES (?, ..., ?)` with `n` placeholders and
the parameters are the `n` values in the same order; with `n = 0` it is
`INSERT INTO <table> (<primary key>) VALUES (NULL)` with no parameter. -/
theorem C2_save_of_unsaved_issues_one_insert (T : Mapped) (r : Base) (log : List Call)
    (h : r.id = ACTIVE_RECORD_UNSAVED) :
    (ensure_prepared T r log).self.attributes_ = r.attributes_ ∧
    (save T r log).log = log ++ prepare_calls T r ++
      [Call.insert
        (insert_statement (ensure_prepared T r log).self.table_name_
          (ensure_prepared T r log).self.primary_key_
          (columns_of (ensure_prepared T r log).self))
        (values_of (ensure_prepared T r log).self)] ∧
    ((save T r log).log.drop log.length).countP Call.is_insert = 1 ∧
    ((save T r log).log.drop log.length).countP Call.is_execute = 0 ∧
    (values_of (ensure_prepared T r log).self).length
      = (columns_of (ensure_prepared T r log).self).length ∧
    (columns_of (ensure_prepared T r log).self = [] →
      values_of (ensure_prepared T r log).self = []) := by
  have hlog : (save T r log).log = log ++ prepare_calls T r ++
      [Call.insert
        (insert_statement (ensure_prepared T r log).self.table_name_
          (ensure_prepared T r log).self.primary_key_
          (columns_of (ensure_prepared T r log).self))
        (values_of (ensure_prepared T r log).self)] := by
    rw [save_unsaved T r log h]
    unfold create
    rw [create_sql_eq, create_parameters, ensure_prepared_log]
  refine ⟨ensure_prepared_attributes T r log, hlog, ?_, ?_, ?_, ?_⟩
  · rw [hlog, List.append_assoc, List.drop_left, List.countP_append,
      prepare_calls_no_insert]
    rfl
  · rw [hlog, List.append_assoc, List.drop_left, List.countP_append,
      prepare_calls_no_execute]
    rfl
  · simp [values_of, columns_of]
  · intro h0
    unfold columns_of at h0
    unfold values_of
    rw [List.map_eq_nil_iff] at h0
    rw [h0]
    rfl

/-- C2 at `Person({name: "Alice", age: 30})`: the save issues the one insert
with the columns `age`, `name` of the map and two placeholders, bound to 30 and
"Alice". -/
theorem C2_witness_alice :
    alice.id = ACTIVE_RECORD_UNSAVED ∧
    (save (Person 7 true no_row) alice []).log =
      [Call.insert "INSERT INTO people (age, name) VALUES (?, ?)"
        [Attribute.integer 30, Attribute.text "Alice"]] :=
  ⟨by decide,
   (C2_save_of_unsaved_issues_one_insert (Person 7 true no_row) alice [] (by decide)).2.1.trans
     (by decide)⟩

/-- C2 at a record holding only its primary key: the insert supplies NULL for
the primary key and passes no parameter. -/
theorem C2_only_primary_key :
    (save (Person 7 true no_row)
      (Base.from_attributes (Person 7 true no_row) [("id", Attribute.integer 5)] []).self []).log =
      [Call.insert "INSERT INTO people (id) VALUES (NULL)" []] := by
  decide

/-- C3: a `save()` of a loaded record with an assigned id `k` issues no insert
and exactly one `execute`, of `UPDATE <table> SET c1 = ?, ..., cn = ? WHERE
<primary key> = ?;` over the names of the map other than the primary key column
with the parameters `[v1, ..., vn, k]`; it returns the boolean `execute`
answered, and the record is left as it was. -/
theorem C3_save_of_loaded_issues_one_update (T : Mapped) (r : Base) (log : List Call)
    (hs : r.state_ = State.loaded) (hk : r.id ≠ ACTIVE_RECORD_UNSAVED) :
    (save T r log).log = log ++
      [Call.execute (update_statement r.table_name_ r.primary_key_ (columns_of r))
        (values_of r ++ [Attribute.integer r.id])] ∧
    (save T r log).result = .ok (T.connection_.execute log
      (update_statement r.table_name_ r.primary_key_ (columns_of r))
      (values_of r ++ [Attribute.integer r.id])) ∧
    (save T r log).self = r ∧
    ((save T r log).log.drop log.length).countP Call.is_insert = 0 ∧
    ((save T r log).log.drop log.length).countP Call.is_execute = 1 := by
  have hsave : save T r log =
      ⟨.ok (T.connection_.execute log
          (update_statement r.table_name_ r.primary_key_ (columns_of r))
          (values_of r ++ [Attribute.integer r.id])), r,
       log ++ [Call.execute (update_statement r.table_name_ r.primary_key_ (columns_of r))
        (values_of r ++ [Attribute.integer r.id])]⟩ := by
    rw [save_eq, ensure_prepared_of_not_blank T r log (by rw [hs]; decide)]
    dsimp only
    rw [if_neg (show ¬ r.id_ = ACTIVE_RECORD_UNSAVED from hk)]
    unfold update
    rw [ensure_loaded_of_loaded T r log hs]
    simp only [Outcome.andThen, update_sql_eq, update_parameters_eq]
  rw [hsave]
  refine ⟨rfl, rfl, rfl, ?_, ?_⟩
  · rw [List.drop_left]; rfl
  · rw [List.drop_left]; rfl

/-- C3 at the loaded record `bob` over a connection whose `execute` answers
false: the save returns false and has issued the one update. -/
theorem C3_witness_bob :
    bob.state_ = State.loaded ∧ bob.id ≠ ACTIVE_RECORD_UNSAVED ∧
    (save (Person 7 false no_row) bob []).log =
      [Call.execute "UPDATE people SET name = ? WHERE id = ?;"
        [Attribute.text "Bob", Attribute.integer 42]] ∧
    (save (Person 7 false no_row) bob []).result = .ok false :=
  ⟨by decide, by decide,
   (C3_save_of_loaded_issues_one_update (Person 7 false no_row) bob [] (by decide)
      (by decide)).1.trans (by decide),
   (C3_save_of_loaded_issues_one_update (Person 7 false no_row) bob [] (by decide)
      (by decide)).2.1.trans rfl⟩

/-- C4: on a record with an assigned id that is not loaded, when the select
answers with a row without data, an attribute access (`operator[]` read or
assigned through, and each typed getter) throws the record-not-found error and
leaves the attribute map and the id as they were, the record still not loaded. -/
theorem C4_access_of_missing_row_fails_not_found (T : Mapped) (r : Base) (log : List Call)
    (name : String) (value : Attribute)
    (hid : r.id ≠ ACTIVE_RECORD_UNSAVED) (hs : r.state_ ≠ State.loaded)
    (hrow : (T.connection_.select_one (ensure_prepared T r log).log
      (select_sql (ensure_prepared T r log).self) [Attribute.integer r.id]).has_data = false) :
    not_found_leaving (operator_index T name r log) r ∧
    not_found_leaving (operator_index_assign T name value r log) r ∧
    not_found_leaving (integer T name r log) r ∧
    not_found_leaving (text T name r log) r ∧
    not_found_leaving (floating_point T name r log) r ∧
    not_found_leaving (date T name r log) r := by
  have hl := load_unless_new_not_found T r log hid hs hrow
  have hnew : (ensure_prepared T r log).self.new_record = true := by
    unfold Base.new_record
    rw [if_pos (fun h => hs ((ensure_prepared_loaded_iff T r log).1 h))]
  have key : ∀ {α : Type} (f : Unit → Base → List Call → Outcome α),
      not_found_leaving ((load_unless_new T r log).andThen f) r := by
    intro α f
    rw [hl, Outcome.andThen_error _ .record_not_found _ rfl]
    exact ⟨rfl, ensure_prepared_attributes T r log, ensure_prepared_id T r log, hnew⟩
  exact ⟨key _, key _, key _, key _, key _, key _⟩

/-- C4 at `Person(42)` over a store without that row. -/
theorem C4_witness_record42 :
    record42.id ≠ ACTIVE_RECORD_UNSAVED ∧ record42.state_ ≠ State.loaded ∧
    (integer (Person 7 true no_row) "name" record42 []).result = .error .record_not_found ∧
    (integer (Person 7 true no_row) "name" record42 []).self.attributes_
      = record42.attributes_ :=
  ⟨by decide, by decide,
   (C4_access_of_missing_row_fails_not_found (Person 7 true no_row) record42 [] "name"
      Attribute.absent (by decide) (by decide) rfl).2.2.1.1,
   (C4_access_of_missing_row_fails_not_found (Person 7 true no_row) record42 [] "name"
      Attribute.absent (by decide) (by decide) rfl).2.2.1.2.1⟩

/-- C5: loading a record that is not yet loaded issues, after the registry
lookup of preparation if any, one `select_one` of `SELECT * FROM <table> WHERE
<primary key> = ?` with the id as the single parameter; when the row answered
has data, the load returns, the attribute map is the row's map, the id is as it
was and the state is loaded. -/
theorem C5_load_selects_by_id_and_replaces_map (T : Mapped) (r : Base) (log : List Call)
    (hs : r.state_ ≠ State.loaded) :
    (ensure_loaded T r log).log = log ++ prepare_calls T r ++
      [Call.select_one
        (select_statement (ensure_prepared T r log).self.table_name_
          (ensure_prepared T r log).self.primary_key_)
        [Attribute.integer r.id]] ∧
    ((T.connection_.select_one (log ++ prepare_calls T r)
        (select_statement (ensure_prepared T r log).self.table_name_
          (ensure_prepared T r log).self.primary_key_)
        [Attribute.integer r.id]).has_data = true →
      (ensure_loaded T r log).result = .ok () ∧
      (ensure_loaded T r log).self.attributes_ =
        (T.connection_.select_one (log ++ prepare_calls T r)
          (select_statement (ensure_prepared T r log).self.table_name_
            (ensure_prepared T r log).self.primary_key_)
          [Attribute.integer r.id]).attributes ∧
      (ensure_loaded T r log).self.id = r.id ∧
      (ensure_loaded T r log).self.state_ = State.loaded) := by
  have hid1 : (ensure_prepared T r log).self.id = r.id := ensure_prepared_id T r log
  rw [ensure_loaded_eq, if_neg hs]
  constructor
  · unfold Outcome.andThen
    split
    · dsimp only
      rw [load_log, select_sql_eq, ensure_prepared_log, hid1]
    · dsimp only
      rw [load_log, select_sql_eq, ensure_prepared_log, hid1]
  · intro hrow
    rw [← ensure_prepared_log T r log, ← select_sql_eq] at hrow ⊢
    unfold load
    dsimp only
    rw [hid1, hrow]
    exact ⟨rfl, rfl, hid1, rfl⟩

/-- C5 at `Person(42)` over a store answering `{name: "Bob"}`: the select is by
id 42, and the record ends loaded with the row's map. -/
theorem C5_witness_record42 :
    record42.state_ ≠ State.loaded ∧
    (ensure_loaded (Person 7 true row_bob) record42 []).log =
      [Call.get_table "Person",
       Call.select_one "SELECT * FROM people WHERE id = ?" [Attribute.integer 42]] ∧
    (ensure_loaded (Person 7 true row_bob) record42 []).self.attributes_ = row_bob.attributes :=
  ⟨by decide,
   (C5_load_selects_by_id_and_replaces_map (Person 7 true row_bob) record42 []
      (by decide)).1.trans (by decide),
   ((C5_load_selects_by_id_and_replaces_map (Person 7 true row_bob) record42 []
      (by decide)).2 rfl).2.1.trans rfl⟩

/-- C6: constructing a record from an id makes no call on the connection.  An
attribute access (`operator[]` read or assigned through, or a typed getter)
issues one `select_one` when the id is not the unsaved sentinel and the record
is not loaded, and none otherwise.  A record holding the sentinel id reads and
writes its in-memory map; and an access of a record with an assigned id that
did not throw record-not-found leaves it loaded, so later accesses select
nothing. -/
theorem C6_lazy_loading (T : Mapped) (id : Int) (r : Base) (log : List Call)
    (name : String) (value : Attribute) :
    (Base.from_id id log).log = log ∧
    (selects_issued (operator_index T name r log) log
        = if r.id ≠ ACTIVE_RECORD_UNSAVED ∧ r.state_ ≠ State.loaded then 1 else 0) ∧
    (selects_issued (operator_index_assign T name value r log) log
        = if r.id ≠ ACTIVE_RECORD_UNSAVED ∧ r.state_ ≠ State.loaded then 1 else 0) ∧
    (selects_issued (integer T name r log) log
        = if r.id ≠ ACTIVE_RECORD_UNSAVED ∧ r.state_ ≠ State.loaded then 1 else 0) ∧
    (selects_issued (text T name r log) log
        = if r.id ≠ ACTIVE_RECORD_UNSAVED ∧ r.state_ ≠ State.loaded then 1 else 0) ∧
    (selects_issued (floating_point T name r log) log
        = if r.id ≠ ACTIVE_RECORD_UNSAVED ∧ r.state_ ≠ State.loaded then 1 else 0) ∧
    (selects_issued (date T name r log) log
        = if r.id ≠ ACTIVE_RECORD_UNSAVED ∧ r.state_ ≠ State.loaded then 1 else 0) ∧
    (r.id = ACTIVE_RECORD_UNSAVED →
      (operator_index T name r log).result = .ok (r.attributes_.at_ name) ∧
      (operator_index T name r log).self.attributes_ = r.attributes_.touch name ∧
      (operator_index_assign T name value r log).self.attributes_
        = r.attributes_.assign name value ∧
      (integer T name r log).result = (r.attributes_.at_ name).get_integer ∧
      (text T name r log).result = (r.attributes_.at_ name).get_text ∧
      (floating_point T name r log).result = (r.attributes_.at_ name).get_floating_point ∧
      (date T name r log).result = (r.attributes_.at_ name).get_date) ∧
    (r.id ≠ ACTIVE_RECORD_UNSAVED →
      loaded_unless_not_found (operator_index T name r log) ∧
      loaded_unless_not_found (operator_index_assign T name value r log) ∧
      loaded_unless_not_found (integer T name r log) ∧
      loaded_unless_not_found (text T name r log) ∧
      loaded_unless_not_found (floating_point T name r log) ∧
      loaded_unless_not_found (date T name r log)) := by
  refine ⟨rfl, access_selects T r log _ _, access_selects T r log _ _,
    access_selects T r log _ _, access_selects T r log _ _, access_selects T r log _ _,
    access_selects T r log _ _, fun hid => ?_, fun hid => ?_⟩
  · have ha := ensure_prepared_attributes T r log
    refine ⟨?_, ?_, ?_, ?_, ?_, ?_, ?_⟩
    · unfold operator_index
      rw [access_of_unsaved T r log _ hid, ha]
    · unfold operator_index
      rw [access_of_unsaved T r log _ hid, ha]
    · unfold operator_index_assign
      rw [access_of_unsaved T r log _ hid, ha]
    · unfold integer typed_get
      rw [access_of_unsaved T r log _ hid, ha]
    · unfold text typed_get
      rw [access_of_unsaved T r log _ hid, ha]
    · unfold floating_point typed_get
      rw [access_of_unsaved T r log _ hid, ha]
    · unfold date typed_get
      rw [access_of_unsaved T r log _ hid, ha]
  · exact ⟨access_loaded T r log _ _ hid, access_loaded T r log _ _ hid,
      access_loaded T r log _ _ hid, access_loaded T r log _ _ hid,
      access_loaded T r log _ _ hid, access_loaded T r log _ _ hid⟩

/-- C6 at `Person(42)` over a store answering `{name: "Bob"}`: the first read of
`name` issues the select, and a second read on the record it left issues none. -/
theorem C6_witness_record42 :
    record42.id ≠ ACTIVE_RECORD_UNSAVED ∧
    selects_issued (operator_index (Person 7 true row_bob) "name" record42 []) [] = 1 ∧
    (operator_index (Person 7 true row_bob) "name" record42 []).self.state_ = State.loaded ∧
    selects_issued
      (operator_index (Person 7 true row_bob) "name"
        (operator_index (Person 7 true row_bob) "name" record42 []).self
        (operator_index (Person 7 true row_bob) "name" record42 []).log)
      (operator_index (Person 7 true row_bob) "name" record42 []).log = 0 :=
  ⟨by decide,
   (C6_lazy_loading (Person 7 true row_bob) 42 record42 [] "name" Attribute.absent).2.1.trans
     (by decide),
   ((C6_lazy_loading (Person 7 true row_bob) 42 record42 [] "name" Attribute.absent).2.2.2.2.2.2.2.2
     (by decide)).1 (fun h => nomatch h),
   by decide⟩

/-- C7: `a == b` is true exactly when the ids are equal, the lifecycle states
are the same, the attribute maps have the same number of entries, and every
entry `(name, value)` of the map of `a` has `value` equal to `b.get(name)`, the
absent value when `b` has no entry for `name`. -/
theorem C7_operator_eq_characterised (a b : Base) :
    (operator_eq a b = true ↔
      a.id = b.id ∧ a.state_ = b.state_ ∧ a.attributes_.size = b.attributes_.size ∧
        ∀ e ∈ a.attributes_.entries, e.2 = b.get e.1) ∧
    (∀ name, b.attributes_.find name = none → b.get name = Attribute.absent) := by
  refine ⟨operator_eq_iff a b, fun name h => ?_⟩
  unfold Base.get
  rw [h]

/-- C8: a loaded record equals its copy; and once the copy has been assigned,
under any name, a value different from what the record's `get` gives for that
name, the record and the copy are unequal in both directions. -/
theorem C8_copy_equal_until_mutated (T : Mapped) (r : Base) (log : List Call)
    (hs : r.state_ = State.loaded) :
    operator_eq r r = true ∧
    ∀ (n : String) (v : Attribute), v ≠ r.get n →
      (operator_index_assign T n v r log).result = .ok () ∧
      operator_eq r (operator_index_assign T n v r log).self = false ∧
      operator_eq (operator_index_assign T n v r log).self r = false := by
  refine ⟨operator_eq_self r, fun n v hv => ?_⟩
  rw [operator_index_assign_of_loaded T n v r log hs]
  refine ⟨rfl, ?_, ?_⟩
  · by_cases hsz : r.attributes_.size = (r.attributes_.assign n v).size
    · have hlen := length_assign_entry n v r.attributes_.entries r.attributes_.ordered
      cases hf : find_entry n r.attributes_.entries with
      | none =>
        rw [hf] at hlen
        simp only [AttributeHash.size, AttributeHash.assign] at hsz
        rw [hlen] at hsz
        simp at hsz
      | some old =>
        have hget : r.get n = old := by
          unfold Base.get AttributeHash.find
          rw [hf]
        apply operator_eq_false_of_entry r _ (n, old) (mem_of_find_entry n old _ hf)
        unfold Base.get AttributeHash.find AttributeHash.assign
        dsimp only
        rw [find_assign_entry_same]
        dsimp only
        rw [← hget]
        exact fun h => hv h.symm
    · exact operator_eq_false_of_size _ _ hsz
  · apply operator_eq_false_of_entry _ r (n, v)
    · exact mem_of_find_entry n v _ (find_assign_entry_same n v r.attributes_.entries)
    · exact hv

/-- C8 at the loaded record `bob`: it equals its copy, and differs from the
copy in both directions once the copy's `name` is set to "Rob". -/
theorem C8_witness_bob :
    bob.state_ = State.loaded ∧ operator_eq bob bob = true ∧
    operator_eq bob
      (operator_index_assign (Person 7 true no_row) "name" (Attribute.text "Rob") bob []).self
      = false ∧
    operator_eq
      (operator_index_assign (Person 7 true no_row) "name" (Attribute.text "Rob") bob []).self bob
      = false :=
  ⟨by decide, (C8_copy_equal_until_mutated (Person 7 true no_row) bob [] (by decide)).1,
   ((C8_copy_equal_until_mutated (Person 7 true no_row) bob [] (by decide)).2 "name"
      (Attribute.text "Rob") (by decide)).2.1,
   ((C8_copy_equal_until_mutated (Person 7 true no_row) bob [] (by decide)).2 "name"
      (Attribute.text "Rob") (by decide)).2.2⟩

/-- C9, as stated, fails at `Person(42)` initialised with `{name: "x"}` over a
store whose row 42 is `{name: "Bob"}`: the map holds text under `name` before
the call and at the extraction, `integer("name")` throws the type mismatch, and
yet the call has loaded the record, so its state and attribute map are no longer
what they were. -/
theorem C9_counterexample_getter_loads_before_failing :
    record42_init.attributes_.find "name" = some (Attribute.text "x") ∧
    (load_unless_new (Person 7 true row_bob) record42_init []).self.attributes_.find "name"
      = some (Attribute.text "Bob") ∧
    (integer (Person 7 true row_bob) "name" record42_init []).result
      = .error .type_mismatch ∧
    record42_init.state_ = State.unsaved ∧
    (integer (Person 7 true row_bob) "name" record42_init []).self.state_ = State.loaded ∧
    (integer (Person 7 true row_bob) "name" record42_init []).self.attributes_
      ≠ record42_init.attributes_ := by
  refine ⟨by decide, by decide, rfl, by decide, by decide, by decide⟩

/-- C9, amended: on a record that needs no preparation and no load (loaded, or
holding the sentinel id and past the blank state), when the map holds under the
name a value of a concrete kind, every typed getter asking for another kind
throws the type mismatch and leaves the record, and the calls on the connection,
exactly as they were. -/
theorem C9_mismatched_getter_fails_and_keeps_settled_record (T : Mapped) (r : Base)
    (log : List Call) (name : String) (v : Attribute) (k : Attribute.Kind)
    (h : settled r) (hv : r.attributes_.find name = some v) (hk : v.kind = some k) :
    (k ≠ Attribute.Kind.integer →
      integer T name r log = ⟨.error .type_mismatch, r, log⟩) ∧
    (k ≠ Attribute.Kind.text →
      text T name r log = ⟨.error .type_mismatch, r, log⟩) ∧
    (k ≠ Attribute.Kind.floating_point →
      floating_point T name r log = ⟨.error .type_mismatch, r, log⟩) ∧
    (k ≠ Attribute.Kind.date →
      date T name r log = ⟨.error .type_mismatch, r, log⟩) := by
  refine ⟨fun hne => ?_, fun hne => ?_, fun hne => ?_, fun hne => ?_⟩
  · unfold integer
    rw [typed_get_of_settled _ T name r log v h hv]
    cases v <;> simp_all [Attribute.kind, Attribute.get_integer]
  · unfold text
    rw [typed_get_of_settled _ T name r log v h hv]
    cases v <;> simp_all [Attribute.kind, Attribute.get_text]
  · unfold floating_point
    rw [typed_get_of_settled _ T name r log v h hv]
    cases v <;> simp_all [Attribute.kind, Attribute.get_floating_point]
  · unfold date
    rw [typed_get_of_settled _ T name r log v h hv]
    cases v <;> simp_all [Attribute.kind, Attribute.get_date]

/-- C9, amended, at the unsaved record `alice`: reading the integer `age` as
text throws the type mismatch and leaves the record as it was. -/
theorem C9_witness_alice :
    settled alice ∧ alice.attributes_.find "age" = some (Attribute.integer 30) ∧
    text (Person 7 true no_row) "age" alice [] = ⟨.error .type_mismatch, alice, []⟩ :=
  ⟨Or.inr ⟨by decide, by decide⟩, by decide,
   (C9_mismatched_getter_fails_and_keeps_settled_record (Person 7 true no_row) alice [] "age"
      (Attribute.integer 30) Attribute.Kind.integer (Or.inr ⟨by decide, by decide⟩) (by decide)
      rfl).2.1 (by decide)⟩

/-- C10, as stated, fails at the record `alice` over a store whose insert
answers 4294967295: after `save()` has returned, `id()` is -1, which is not the
value answered, is negative, and is the unsaved sentinel. -/
theorem C10_counterexample_generated_id_narrowed :
    alice.id = ACTIVE_RECORD_UNSAVED ∧
    (Person 4294967295 true no_row).connection_.insert []
      "INSERT INTO people (age, name) VALUES (?, ?)"
      [Attribute.integer 30, Attribute.text "Alice"] = 4294967295 ∧
    (save (Person 4294967295 true no_row) alice []).result = .ok true ∧
    (save (Person 4294967295 true no_row) alice []).log =
      [Call.insert "INSERT INTO people (age, name) VALUES (?, ?)"
        [Attribute.integer 30, Attribute.text "Alice"]] ∧
    (save (Person 4294967295 true no_row) alice []).self.id = -1 ∧
    (save (Person 4294967295 true no_row) alice []).self.id ≠ 4294967295 ∧
    ¬ 0 ≤ (save (Person 4294967295 true no_row) alice []).self.id ∧
    (save (Person 4294967295 true no_row) alice []).self.id = ACTIVE_RECORD_UNSAVED := by
  refine ⟨by decide, rfl, rfl, by decide, by decide, by decide, by decide, by decide⟩

/-- C10, amended: after a `save()` of a record holding the unsaved sentinel id
has returned, `id()` is the value the connection's insert answered, converted to
a signed 32-bit `int`: it is that value whenever the value lies in the range of
`int`, and it is then non-negative and different from the sentinel whenever the
value is non-negative. -/
theorem C10_id_is_generated_id_narrowed_to_int (T : Mapped) (r : Base) (log : List Call)
    (h : r.id = ACTIVE_RECORD_UNSAVED) :
    (save T r log).result = .ok true ∧
    (save T r log).self.id =
      to_int (T.connection_.insert (log ++ prepare_calls T r)
        (insert_statement (ensure_prepared T r log).self.table_name_
          (ensure_prepared T r log).self.primary_key_
          (columns_of (ensure_prepared T r log).self))
        (values_of (ensure_prepared T r log).self)) ∧
    (∀ x : Int, -2147483648 ≤ x → x < 2147483648 → to_int x = x) ∧
    (∀ x : Int, 0 ≤ x → x < 2147483648 → 0 ≤ to_int x ∧ to_int x ≠ ACTIVE_RECORD_UNSAVED) := by
  refine ⟨?_, ?_, ?_, ?_⟩
  · rw [save_unsaved T r log h]
    rfl
  · rw [save_unsaved T r log h]
    unfold create
    rw [create_sql_eq, create_parameters, ensure_prepared_log]
    rfl
  · intro x h1 h2
    unfold to_int
    omega
  · intro x h1 h2
    unfold to_int ACTIVE_RECORD_UNSAVED
    omega

/-- C10, amended, at the record `alice` over a store whose insert answers 7:
the id after the save is 7. -/
theorem C10_witness_alice :
    alice.id = ACTIVE_RECORD_UNSAVED ∧
    (save (Person 7 true no_row) alice []).self.id = 7 :=
  ⟨by decide,
   (C10_id_is_generated_id_narrowed_to_int (Person 7 true no_row) alice [] (by decide)).2.1.trans
     (by decide)⟩

/-- C11, as stated, fails at `Person(42)`: the record is blank, `init({name:
"x"})` returns, and `id()` is still 42 afterwards, not the unsaved sentinel. -/
theorem C11_counterexample_init_keeps_id :
    record42.state_ = State.blank ∧
    (init (Person 7 true row_bob) [("name", Attribute.text "x")] record42 []).result = .ok () ∧
    (init (Person 7 true row_bob) [("name", Attribute.text "x")] record42 []).self.id = 42 ∧
    (init (Person 7 true row_bob) [("name", Attribute.text "x")] record42 []).self.id
      ≠ ACTIVE_RECORD_UNSAVED := by
  refine ⟨by decide, rfl, by decide, by decide⟩

/-- C11, amended: `init(attributes)` returns and leaves the record with the id
it had, in state unsaved, and with an attribute map that binds each supplied
name to the last value supplied for it and every other name as before. -/
theorem C11_init_keeps_id_sets_unsaved_and_overrides_map (T : Mapped)
    (attributes : GenericAttributePairList) (r : Base) (log : List Call) :
    (init T attributes r log).result = .ok () ∧
    (init T attributes r log).self.id = r.id ∧
    (init T attributes r log).self.state_ = State.unsaved ∧
    (∀ name, (init T attributes r log).self.attributes_.find name
      = overridden r.attributes_ attributes name) ∧
    (∀ name v, (name, v) ∈ attributes →
      ∃ w, (init T attributes r log).self.attributes_.find name = some w) ∧
    (∀ name, (∀ a ∈ attributes, a.1 ≠ name) →
      (init T attributes r log).self.attributes_.find name = r.attributes_.find name) := by
  rw [init_eq]
  have hfind : ∀ name, (attributes.foldl (fun m a => m.assign a.1 a.2)
      (ensure_prepared T r log).self.attributes_).find name
        = overridden r.attributes_ attributes name := by
    intro name
    rw [find_foldl_assign, ensure_prepared_attributes]
  refine ⟨rfl, ensure_prepared_id T r log, rfl, hfind, ?_, ?_⟩
  · intro name v hmem
    dsimp only
    rw [hfind]
    unfold overridden
    cases hf : attributes.reverse.find? fun a => a.1 = name with
    | some a => exact ⟨a.2, rfl⟩
    | none =>
      rw [List.find?_eq_none] at hf
      exact absurd (by simp) (hf (name, v) (List.mem_reverse.2 hmem))
  · intro name hnone
    dsimp only
    rw [hfind]
    unfold overridden
    cases hf : attributes.reverse.find? fun a => a.1 = name with
    | some a =>
      have hm := List.mem_of_find?_eq_some hf
      have hp := List.find?_some hf
      exact absurd (by simpa using hp) (hnone a (List.mem_reverse.1 hm))
    | none => rfl

/-- C12, as stated, fails at a default-constructed record of a mapped type
declared with an empty class name: `prepare` returns normally, the record is
still blank, and `init`, `save` and a read through `operator[]` return as well. -/
theorem C12_counterexample_prepare_returns_on_empty_class_name :
    Nameless.class_name = "" ∧ fresh.state_ = State.blank ∧
    (prepare Nameless fresh []).result = .ok () ∧
    (prepare Nameless fresh []).self.state_ = State.blank ∧
    (init Nameless [("name", Attribute.text "x")] fresh []).result = .ok () ∧
    (save Nameless fresh []).result = .ok true ∧
    (operator_index Nameless "name" fresh []).result = .ok Attribute.absent := by
  refine ⟨rfl, by decide, rfl, by decide, rfl, rfl, rfl⟩

/-- C12, amended: on a blank record of a mapped type whose class name is the
empty string, `prepare` (and `ensure_prepared`, through which `init`, `save` and
every attribute access reach it) returns normally, makes no call on the
connection and leaves the record as it was, still blank; `init` then returns. -/
theorem C12_prepare_returns_unprepared_on_empty_class_name (T : Mapped) (r : Base)
    (log : List Call) (attributes : GenericAttributePairList)
    (hname : T.class_name = "") (hs : r.state_ = State.blank) :
    prepare T r log = ⟨.ok (), r, log⟩ ∧
    ensure_prepared T r log = ⟨.ok (), r, log⟩ ∧
    (init T attributes r log).result = .ok () ∧
    (init T attributes r log).log = log := by
  have hp : prepare T r log = ⟨.ok (), r, log⟩ := by
    unfold prepare
    rw [hs, hname]
    rfl
  have he : ensure_prepared T r log = ⟨.ok (), r, log⟩ := by
    unfold ensure_prepared
    rw [if_pos (by rw [hs]; decide), hp]
  refine ⟨hp, he, ?_, ?_⟩
  · rw [init_eq]
  · rw [init_eq, he]

/-- C12, amended, at the default-constructed record of the mapped type declared
with an empty class name. -/
theorem C12_witness_nameless :
    Nameless.class_name = "" ∧ fresh.state_ = State.blank ∧
    prepare Nameless fresh [] = ⟨.ok (), fresh, []⟩ :=
  ⟨rfl, by decide,
   (C12_prepare_returns_unprepared_on_empty_class_name Nameless fresh [] [] rfl
      (by decide)).1⟩

/-- C13, as stated, fails at two instances of `Person` constructed one after
the other from attribute maps, after one `setup`: each construction looks the
table up, so the registry is asked twice, the second time by the preparation of
the second instance. -/
theorem C13_counterexample_each_instance_looks_up :
    (setup "Person" (fun _ => people) none (some (fixed_connection 7 true no_row)) []).log
      = [Call.set_table "Person" people] ∧
    (Base.from_attributes (Person 7 true no_row) [("name", Attribute.text "Alice")]
      [Call.set_table "Person" people]).log
      = [Call.set_table "Person" people, Call.get_table "Person"] ∧
    (Base.from_attributes (Person 7 true no_row) [("name", Attribute.text "Bob")]
      [Call.set_table "Person" people, Call.get_table "Person"]).log
      = [Call.set_table "Person" people, Call.get_table "Person", Call.get_table "Person"] ∧
    registry_lookups
      (Base.from_attributes (Person 7 true no_row) [("name", Attribute.text "Bob")]
        [Call.set_table "Person" people, Call.get_table "Person"]).log = 2 := by
  refine ⟨by decide, by decide, by decide, by decide⟩

/-- C13, amended: preparation is memoized per instance.  Over any sequence of
operations (init, save, reads and assignments through `operator[]`, typed
getters) on one record, the registry is looked up once if the record starts
blank, the class name is not empty and there is an operation at all, and not
otherwise; a preparation that follows a preparation makes no call; and every
freshly constructed instance makes its own lookup on its first operation. -/
theorem C13_preparation_memoized_per_instance (T : Mapped) (ops : List Operation) (r : Base)
    (log : List Call) :
    registry_lookups (run_all T ops r log).2 = registry_lookups log +
      (if ops.isEmpty = false ∧ r.state_ = State.blank ∧ T.class_name.isEmpty = false then 1
        else 0) ∧
    (ensure_prepared T (ensure_prepared T r log).self (ensure_prepared T r log).log).log
      = (ensure_prepared T r log).log ∧
    (∀ (id : Int) (op : Operation), T.class_name.isEmpty = false →
      registry_lookups (op.run T (Base.from_id id log).self log).2
        = registry_lookups log + 1) := by
  have hcalls : registry_lookups (prepare_calls T r)
      = if r.state_ = State.blank ∧ T.class_name.isEmpty = false then 1 else 0 := by
    unfold prepare_calls
    split <;> rfl
  refine ⟨?_, ?_, ?_⟩
  · cases ops with
    | nil => simp [run_all]
    | cons op rest =>
      have ht := tracks_run T op r log
      unfold run_all
      rw [run_all_prepared T rest _ _ ht.2, ht.1, hcalls]
      by_cases hc : r.state_ = State.blank ∧ T.class_name.isEmpty = false
      · rw [if_pos hc, if_pos ⟨rfl, hc⟩]
      · rw [if_neg hc, if_neg (fun h => hc h.2)]
  · rw [ensure_prepared_idem]
  · intro id op hname
    have ht := tracks_run T op (Base.from_id id log).self log
    rw [ht.1]
    unfold prepare_calls Base.from_id
    rw [if_pos ⟨rfl, hname⟩]
    rfl

/-- C14: `has_many` and `belongs_to` throw the not-loaded error exactly when
the state of the owning record is not loaded; when they throw it they have made
no call on the connection and left the record as it was; on a loaded record
they return what the query gives, after one registry lookup for the target
type. -/
theorem C14_associations_need_loaded_owner (T : Mapped) (T1_class_name : String)
    (query : Query) (r : Base) (log : List Call) :
    ((has_many T T1_class_name query r log).result = .error .not_loaded
      ↔ r.state_ ≠ State.loaded) ∧
    ((belongs_to T T1_class_name query r log).result = .error .not_loaded
      ↔ r.state_ ≠ State.loaded) ∧
    (r.state_ ≠ State.loaded →
      has_many T T1_class_name query r log = ⟨.error .not_loaded, r, log⟩ ∧
      belongs_to T T1_class_name query r log = ⟨.error .not_loaded, r, log⟩) ∧
    (r.state_ = State.loaded →
      (∃ found, (has_many T T1_class_name query r log).result = .ok found) ∧
      (∃ found, (belongs_to T T1_class_name query r log).result = .ok found) ∧
      (has_many T T1_class_name query r log).log.take (log.length + 1)
        = log ++ [Call.get_table T1_class_name] ∧
      (belongs_to T T1_class_name query r log).log.take (log.length + 1)
        = log ++ [Call.get_table T1_class_name]) := by
  by_cases hs : r.state_ = State.loaded
  · have hn : ¬ r.state_.toNat < State.loaded.toNat := fun h => (below_loaded_iff r).1 h hs
    have hm : has_many T T1_class_name query r log =
        ⟨.ok (query.all (log ++ [Call.get_table T1_class_name]) (r.singular_name_ ++ "_id = ?")
            [Attribute.integer r.id]).1, r,
         log ++ [Call.get_table T1_class_name] ++
          (query.all (log ++ [Call.get_table T1_class_name]) (r.singular_name_ ++ "_id = ?")
            [Attribute.integer r.id]).2⟩ := by
      unfold has_many
      rw [if_neg hn]
    have hb : belongs_to T T1_class_name query r log =
        ⟨.ok (query.first (log ++ [Call.get_table T1_class_name])
            ((T.connection_.get_table log T1_class_name).primary_key ++ " = ?")
            [Attribute.integer r.id]).1, r,
         log ++ [Call.get_table T1_class_name] ++
          (query.first (log ++ [Call.get_table T1_class_name])
            ((T.connection_.get_table log T1_class_name).primary_key ++ " = ?")
            [Attribute.integer r.id]).2⟩ := by
      unfold belongs_to
      rw [if_neg hn]
    rw [hm, hb]
    refine ⟨⟨fun h => (nomatch h), fun h => absurd hs h⟩,
      ⟨fun h => (nomatch h), fun h => absurd hs h⟩,
      fun h => absurd hs h, fun _ => ⟨⟨_, rfl⟩, ⟨_, rfl⟩, ?_, ?_⟩⟩
    · rw [List.take_append_of_le_length (by simp)]
      simp
    · rw [List.take_append_of_le_length (by simp)]
      simp
  · have hn : r.state_.toNat < State.loaded.toNat := (below_loaded_iff r).2 hs
    have hm : has_many T T1_class_name query r log = ⟨.error .not_loaded, r, log⟩ := by
      unfold has_many
      rw [if_pos hn]
    have hb : belongs_to T T1_class_name query r log = ⟨.error .not_loaded, r, log⟩ := by
      unfold belongs_to
      rw [if_pos hn]
    rw [hm, hb]
    exact ⟨⟨fun _ => hs, fun _ => rfl⟩, ⟨fun _ => hs, fun _ => rfl⟩, fun _ => ⟨rfl, rfl⟩,
      fun h => absurd h hs⟩

/-- C15: `setup(connection)` throws a configuration error when the connection
is NULL and when the descriptor of the mapped type has an empty table name, and
in both cases makes no call on the connection, so nothing is registered;
otherwise it returns after exactly one `set_table`, of the descriptor under the
class name of the type. -/
theorem C15_setup_registers_or_fails (class_name : String) (table : Connection → Table)
    (installed : Option Connection) (c : Connection) (log : List Call) :
    setup class_name table installed none log = ⟨.error .connection_is_null, installed, log⟩ ∧
    ARError.connection_is_null.is_configuration = true ∧
    ARError.table_name_not_set.is_configuration = true ∧
    ((table c).table_name.isEmpty = true →
      setup class_name table installed (some c) log
        = ⟨.error .table_name_not_set, some c, log⟩) ∧
    ((table c).table_name.isEmpty = false →
      setup class_name table installed (some c) log
        = ⟨.ok (), some c, log ++ [Call.set_table class_name (table c)]⟩ ∧
      ((setup class_name table installed (some c) log).log.drop log.length).countP
        Call.is_set_table = 1) := by
  refine ⟨rfl, rfl, rfl, fun h => ?_, fun h => ?_⟩
  · unfold setup
    dsimp only
    rw [if_pos h]
  · have hs : setup class_name table installed (some c) log
        = ⟨.ok (), some c, log ++ [Call.set_table class_name (table c)]⟩ := by
      unfold setup
      dsimp only
      rw [if_neg (by rw [h]; decide)]
    rw [hs]
    refine ⟨rfl, ?_⟩
    rw [List.drop_left]
    rfl

/-- C15 at the connection of the examples: a descriptor named `people` is
registered under `Person` with one `set_table`, and a descriptor without a
table name is refused with nothing registered. -/
theorem C15_witness_person :
    (setup "Person" (fun _ => people) none (some (fixed_connection 7 true no_row)) []).log
      = [Call.set_table "Person" people] ∧
    (setup "Person" (fun _ => ⟨"", "id"⟩) none (some (fixed_connection 7 true no_row)) []).log
      = [] :=
  ⟨congrArg SetupOutcome.log
     ((C15_setup_registers_or_fails "Person" (fun _ => people) none
        (fixed_connection 7 true no_row) []).2.2.2.2 (by decide)).1,
   congrArg SetupOutcome.log
     ((C15_setup_registers_or_fails "Person" (fun _ => ⟨"", "id"⟩) none
        (fixed_connection 7 true no_row) []).2.2.2.1 (by decide))⟩

/-- C16: the decoding of one cell.  A declared type equal up to letter case to
INTEGER gives the integer reading, to FLOAT the floating-point reading, to TEXT
the cell text or absent for a null cell, to DATE the parsed date or absent for
a null cell; no declared type gives the cell text or absent for a null cell;
and the decoder throws, the unhandled-data-type error, exactly when a declared
type is present and is none of the four names. -/
theorem C16_from_field_decoding (f : Field) :
    (∀ d, f.column_decltype = some d → strcasecmp_eq d "INTEGER" = true →
      Attribute.from_field f = .ok (Attribute.integer f.column_int64)) ∧
    (∀ d, f.column_decltype = some d → strcasecmp_eq d "FLOAT" = true →
      Attribute.from_field f = .ok (Attribute.floating_point f.column_double)) ∧
    (∀ d, f.column_decltype = some d → strcasecmp_eq d "TEXT" = true →
      Attribute.from_field f =
        match f.column_text with
        | none => .ok Attribute.absent
        | some value => .ok (Attribute.text value)) ∧
    (∀ d, f.column_decltype = some d → strcasecmp_eq d "DATE" = true →
      Attribute.from_field f =
        match f.column_text with
        | none => .ok Attribute.absent
        | some value => .ok (Attribute.date (Date.parse value))) ∧
    (f.column_decltype = none →
      Attribute.from_field f =
        match f.column_text with
        | none => .ok Attribute.absent
        | some value => .ok (Attribute.text value)) ∧
    ((∃ e, Attribute.from_field f = .error e) ↔
      ∃ d, f.column_decltype = some d ∧ known_type d = false) ∧
    (∀ d, f.column_decltype = some d → known_type d = false →
      Attribute.from_field f = .error (.unhandled_data_type d)) := by
  have hunknown : ∀ d, f.column_decltype = some d → known_type d = false →
      Attribute.from_field f = .error (.unhandled_data_type d) := by
    intro d hd hk
    unfold known_type at hk
    simp only [Bool.or_eq_false_iff] at hk
    unfold Attribute.from_field
    rw [hd]
    simp [hk.1.1.1, hk.1.1.2, hk.1.2, hk.2]
  have hknown : ∀ d, f.column_decltype = some d → known_type d = true →
      ∃ a, Attribute.from_field f = .ok a := by
    intro d hd hk
    unfold Attribute.from_field
    rw [hd]
    dsimp only
    unfold known_type at hk
    split
    · exact ⟨_, rfl⟩
    · split
      · exact ⟨_, rfl⟩
      · split
        · cases f.column_text <;> exact ⟨_, rfl⟩
        · split
          · cases f.column_text <;> exact ⟨_, rfl⟩
          · simp_all
  refine ⟨?_, ?_, ?_, ?_, ?_, ?_, hunknown⟩
  · intro d hd h
    unfold Attribute.from_field
    rw [hd]
    simp [h]
  · intro d hd h
    unfold Attribute.from_field
    rw [hd]
    simp [h, strcasecmp_eq_exclusive d "FLOAT" "INTEGER" (by decide) h]
  · intro d hd h
    unfold Attribute.from_field
    rw [hd]
    simp [h, strcasecmp_eq_exclusive d "TEXT" "INTEGER" (by decide) h,
      strcasecmp_eq_exclusive d "TEXT" "FLOAT" (by decide) h]
  · intro d hd h
    unfold Attribute.from_field
    rw [hd]
    simp [h, strcasecmp_eq_exclusive d "DATE" "INTEGER" (by decide) h,
      strcasecmp_eq_exclusive d "DATE" "FLOAT" (by decide) h,
      strcasecmp_eq_exclusive d "DATE" "TEXT" (by decide) h]
  · intro hd
    unfold Attribute.from_field
    rw [hd]
  · constructor
    · rintro ⟨e, he⟩
      cases hd : f.column_decltype with
      | none =>
        unfold Attribute.from_field at he
        rw [hd] at he
        cases ht : f.column_text <;> rw [ht] at he <;> exact nomatch he
      | some d =>
        refine ⟨d, rfl, ?_⟩
        cases hk : known_type d with
        | false => rfl
        | true =>
          obtain ⟨a, ha⟩ := hknown d hd hk
          rw [ha] at he
          exact nomatch he
    · rintro ⟨d, hd, hk⟩
      exact ⟨_, hunknown d hd hk⟩

/-- C16 at three cells: a column declared `integer` holding 30, a column
declared `text` holding NULL, and a column declared `BLOB`. -/
theorem C16_witness_cells :
    Attribute.from_field ⟨some "integer", some "30", 30, ⟨0⟩⟩ = .ok (Attribute.integer 30) ∧
    Attribute.from_field ⟨some "text", none, 0, ⟨0⟩⟩ = .ok Attribute.absent ∧
    Attribute.from_field ⟨some "BLOB", some "x", 0, ⟨0⟩⟩ = .error (.unhandled_data_type "BLOB") :=
  ⟨(C16_from_field_decoding ⟨some "integer", some "30", 30, ⟨0⟩⟩).1 "integer" rfl (by decide),
   (C16_from_field_decoding ⟨some "text", none, 0, ⟨0⟩⟩).2.2.1 "text" rfl (by decide),
   (C16_from_field_decoding ⟨some "BLOB", some "x", 0, ⟨0⟩⟩).2.2.2.2.2.2 "BLOB" rfl (by decide)⟩

/-- C17 fails on the code: the unsaved records holding `{x: absent}` and `{y:
5}` have the same id, state and map size, and `operator==` answers true one way
round and false the other. -/
theorem C17_operator_eq_not_symmetric_at_absent_entry :
    only_x.id = only_y.id ∧ only_x.state_ = only_y.state_ ∧
    only_x.attributes_.size = only_y.attributes_.size ∧
    only_x.attributes_.entries = [("x", Attribute.absent)] ∧
    only_y.attributes_.entries = [("y", Attribute.integer 5)] ∧
    operator_eq only_x only_y = true ∧ operator_eq only_y only_x = false := by
  refine ⟨by decide, by decide, by decide, by decide, by decide, by decide, by decide⟩

/-- C18: in the statements `save()` sends, the number of `?` equals the number of
parameters.  `create` sends its statement with the looped parameters and
`update` its statement with the looped parameters and the id; when no name in the map
contains `?`, the placeholders `create` writes are as many as its parameters,
the columns `update` writes hold as many `?` as it has
looped parameters, and, the table and primary key names holding no `?` either,
each whole statement holds as many `?` as parameters are passed with it. -/
theorem C18_placeholders_match_parameters (T : Mapped) (r : Base) (log : List Call)
    (hnames : ∀ e ∈ r.attributes_.entries, placeholders e.1 = 0) :
    (create T r log).log = log ++ [Call.insert (create_sql r) (create_loop r).parameters] ∧
    (r.state_ = State.loaded →
      (update T r log).log = log ++ [Call.execute (update_sql r) (update_parameters r)]) ∧
    placeholders (create_loop r).placeholders = (create_loop r).parameters.length ∧
    placeholders (update_loop r).columns + 1 = (update_parameters r).length ∧
    (placeholders r.table_name_ = 0 → placeholders r.primary_key_ = 0 →
      placeholders (create_sql r) = (create_loop r).parameters.length ∧
      placeholders (update_sql r) = (update_parameters r).length) := by
  have hcreate := create_fold_count r.primary_key_ r.attributes_.entries ⟨false, "", "", []⟩
    hnames ⟨rfl, rfl⟩
  have hupdate := update_fold_count r.primary_key_ r.attributes_.entries ⟨false, "", []⟩
    hnames rfl
  have h1 : placeholders "INSERT INTO " = 0 := by decide
  have h2 : placeholders " " = 0 := by decide
  have h3 : placeholders "(" = 0 := by decide
  have h4 : placeholders ") VALUES (" = 0 := by decide
  have h5 : placeholders ")" = 0 := by decide
  have h6 : placeholders ") VALUES (NULL)" = 0 := by decide
  have h7 : placeholders "UPDATE " = 0 := by decide
  have h8 : placeholders "SET " = 0 := by decide
  have h9 : placeholders "WHERE " = 0 := by decide
  have h10 : placeholders " = ?;" = 1 := by decide
  refine ⟨rfl, fun hs => ?_, hcreate.1, ?_, fun htable hpk => ⟨?_, ?_⟩⟩
  · unfold update
    rw [ensure_loaded_of_loaded T r log hs]
    rfl
  · unfold update_parameters
    rw [List.length_append]
    exact congrArg (· + 1) hupdate
  · have hno : (create_loop r).columns_added = false → (create_loop r).parameters.length = 0 := by
      intro hf
      rw [create_loop_eq] at hf ⊢
      split at hf
      · rename_i h0
        rw [if_pos h0]
        rfl
      · exact absurd hf (by simp)
    unfold create_sql
    dsimp only
    cases hadd : (create_loop r).columns_added
    · simp [placeholders_append, h1, h2, h3, h6, htable, hpk, hno hadd]
    · have hc1 := hcreate.1
      have hc2 := hcreate.2
      unfold create_loop at hadd
      simp only [hadd, if_true]
      simp only [placeholders_append, h1, h2, h3, h4, h5, htable]
      unfold create_loop
      omega
  · unfold update_sql update_parameters
    simp only [placeholders_append, h2, h7, h8, h9, h10, htable, hpk, List.length_append,
      List.length_singleton]
    unfold update_loop
    omega

/-- C18 at the record `alice`: the insert and the update built from its map
hold two and three `?`, with two and three parameters. -/
theorem C18_witness_alice :
    (∀ e ∈ alice.attributes_.entries, placeholders e.1 = 0) ∧
    placeholders (create_sql alice) = 2 ∧ (create_loop alice).parameters.length = 2 ∧
    placeholders (update_sql alice) = 3 ∧ (update_parameters alice).length = 3 :=
  ⟨by decide,
   ((C18_placeholders_match_parameters (Person 7 true no_row) alice [] (by decide)).2.2.2.2
      (by decide) (by decide)).1.trans (by decide),
   by decide,
   ((C18_placeholders_match_parameters (Person 7 true no_row) alice [] (by decide)).2.2.2.2
      (by decide) (by decide)).2.trans (by decide),
   by decide⟩

/-- C19, as stated, fails at the default-constructed record `Person()`: it
holds the sentinel id and no attribute, the read of `name` returns absent, and
the state has gone from blank to prepared. -/
theorem C19_counterexample_read_prepares_blank_record :
    fresh.id = ACTIVE_RECORD_UNSAVED ∧ fresh.attributes_.find "name" = none ∧
    fresh.state_ = State.blank ∧
    (operator_index (Person 7 true no_row) "name" fresh []).result = .ok Attribute.absent ∧
    (operator_index (Person 7 true no_row) "name" fresh []).self.state_ = State.prepared ∧
    (operator_index (Person 7 true no_row) "name" fresh []).self.state_ ≠ fresh.state_ := by
  refine ⟨by decide, by decide, by decide, rfl, by decide, by decide⟩

/-- C19, amended: on a record holding the sentinel id, reading through
`operator[]` a name the map does not hold returns the absent value and leaves
the map with the name bound to absent and every other name as before, so one
entry larger and with `has_data()` true; the id is as before, and so is the
state unless the record was blank: a blank record ends prepared when the class
name is not empty, and is still blank when the class name is empty.  The reader
`get` gives absent for the name, and being a function of the record changes
nothing. -/
theorem C19_reading_missing_attribute_binds_absent (T : Mapped) (r : Base) (log : List Call)
    (name : String) (hid : r.id = ACTIVE_RECORD_UNSAVED)
    (hmiss : r.attributes_.find name = none) :
    (operator_index T name r log).result = .ok Attribute.absent ∧
    (operator_index T name r log).self.attributes_.find name = some Attribute.absent ∧
    (∀ other, other ≠ name →
      (operator_index T name r log).self.attributes_.find other = r.attributes_.find other) ∧
    (operator_index T name r log).self.attributes_.size = r.attributes_.size + 1 ∧
    (operator_index T name r log).self.has_data = true ∧
    (operator_index T name r log).self.id = r.id ∧
    (r.state_ ≠ State.blank → (operator_index T name r log).self.state_ = r.state_) ∧
    (r.state_ = State.blank → T.class_name.isEmpty = false →
      (operator_index T name r log).self.state_ = State.prepared) ∧
    (r.state_ = State.blank → T.class_name.isEmpty = true →
      (operator_index T name r log).self.state_ = State.blank) ∧
    r.get name = Attribute.absent := by
  have ha := ensure_prepared_attributes T r log
  have hop : operator_index T name r log =
      ⟨.ok Attribute.absent,
       { (ensure_prepared T r log).self with
          attributes_ := r.attributes_.assign name Attribute.absent },
       (ensure_prepared T r log).log⟩ := by
    unfold operator_index
    rw [access_of_unsaved T r log _ hid, ha]
    unfold AttributeHash.at_ AttributeHash.touch
    rw [hmiss]
  have hsize : (r.attributes_.assign name Attribute.absent).size = r.attributes_.size + 1 := by
    have hlen := length_assign_entry name Attribute.absent r.attributes_.entries
      r.attributes_.ordered
    unfold AttributeHash.find at hmiss
    rw [if_pos hmiss] at hlen
    exact hlen
  rw [hop]
  refine ⟨rfl, ?_, ?_, hsize, ?_, ensure_prepared_id T r log, ?_, ?_, ?_, ?_⟩
  · dsimp only
    rw [find_assign, if_pos rfl]
  · intro other hne
    dsimp only
    rw [find_assign, if_neg (fun h => hne h.symm)]
  · unfold Base.has_data
    dsimp only
    rw [hsize, if_pos (Nat.succ_pos _)]
  · intro hs
    dsimp only
    rw [ensure_prepared_of_not_blank T r log hs]
  · intro hs hc
    dsimp only
    rw [ensure_prepared_state_of_blank T r log hs, if_neg (by rw [hc]; decide)]
  · intro hs hc
    dsimp only
    rw [ensure_prepared_state_of_blank T r log hs, if_pos hc]
  · unfold Base.get
    rw [hmiss]

/-- C19, amended, at three records.  On the unsaved record `alice`, reading the
missing `email` returns absent and leaves three entries in the same state.  On
the default-constructed, blank `Person()`, reading `name` returns absent, binds
it, and leaves the record prepared; on the blank record of the mapped type with
an empty class name the same read leaves it blank. -/
theorem C19_witness_unsaved_and_blank :
    alice.id = ACTIVE_RECORD_UNSAVED ∧ alice.attributes_.find "email" = none ∧
    (operator_index (Person 7 true no_row) "email" alice []).result = .ok Attribute.absent ∧
    (operator_index (Person 7 true no_row) "email" alice []).self.attributes_.size = 3 ∧
    (operator_index (Person 7 true no_row) "email" alice []).self.state_ = alice.state_ ∧
    fresh.id = ACTIVE_RECORD_UNSAVED ∧ fresh.attributes_.find "name" = none ∧
    fresh.state_ = State.blank ∧
    (Person 7 true no_row).class_name.isEmpty = false ∧
    (operator_index (Person 7 true no_row) "name" fresh []).self.attributes_.find "name"
      = some Attribute.absent ∧
    (operator_index (Person 7 true no_row) "name" fresh []).self.has_data = true ∧
    (operator_index (Person 7 true no_row) "name" fresh []).self.state_ = State.prepared ∧
    Nameless.class_name.isEmpty = true ∧
    (operator_index Nameless "name" fresh []).self.state_ = State.blank :=
  ⟨by decide, by decide,
   (C19_reading_missing_attribute_binds_absent (Person 7 true no_row) alice [] "email"
      (by decide) (by decide)).1,
   (C19_reading_missing_attribute_binds_absent (Person 7 true no_row) alice [] "email"
      (by decide) (by decide)).2.2.2.1.trans (by decide),
   (C19_reading_missing_attribute_binds_absent (Person 7 true no_row) alice [] "email"
      (by decide) (by decide)).2.2.2.2.2.2.1 (by decide),
   by decide, by decide, by decide, by decide,
   (C19_reading_missing_attribute_binds_absent (Person 7 true no_row) fresh [] "name"
      (by decide) (by decide)).2.1,
   (C19_reading_missing_attribute_binds_absent (Person 7 true no_row) fresh [] "name"
      (by decide) (by decide)).2.2.2.2.1,
   (C19_reading_missing_attribute_binds_absent (Person 7 true no_row) fresh [] "name"
      (by decide) (by decide)).2.2.2.2.2.2.2.1 (by decide) (by decide),
   by decide,
   (C19_reading_missing_attribute_binds_absent Nameless fresh [] "name"
      (by decide) (by decide)).2.2.2.2.2.2.2.2.1 (by decide) (by decide)⟩

/-- C20: a `save()` of a record with an assigned id `k` that is not loaded, when
the select finds the row, loads the row and then updates: after the lookup of
preparation if any it issues the select by id and one `execute` whose
statement sets the names of the fetched row other than the primary key and
whose parameters are the values of the fetched row under those names followed
by `k`; the record ends with the row's map; and the calls are the same whatever
attribute map the record held before, so values given through `init` are not
written. -/
theorem C20_save_of_unloaded_writes_fetched_row (T : Mapped) (r : Base) (log : List Call)
    (hid : r.id ≠ ACTIVE_RECORD_UNSAVED) (hs : r.state_ ≠ State.loaded)
    (hrow : (fetched T r log).has_data = true) :
    (save T r log).log = log ++ prepare_calls T r ++
      [Call.select_one
        (select_statement (ensure_prepared T r log).self.table_name_
          (ensure_prepared T r log).self.primary_key_)
        [Attribute.integer r.id],
       Call.execute
        (update_statement (ensure_prepared T r log).self.table_name_
          (ensure_prepared T r log).self.primary_key_
          ((kept (ensure_prepared T r log).self.primary_key_
            (fetched T r log).attributes.entries).map Prod.fst))
        ((kept (ensure_prepared T r log).self.primary_key_
            (fetched T r log).attributes.entries).map Prod.snd ++ [Attribute.integer r.id])] ∧
    (save T r log).self.attributes_ = (fetched T r log).attributes ∧
    (save T r log).self.state_ = State.loaded ∧
    (∀ m : AttributeHash,
      (save T { r with attributes_ := m } log).log = (save T r log).log) := by
  have hid1 : (ensure_prepared T r log).self.id = r.id := ensure_prepared_id T r log
  have hsave := save_of_not_loaded T r log hid hs hrow
  refine ⟨?_, ?_, ?_, ?_⟩
  · rw [hsave]
    dsimp only
    rw [update_sql_eq, update_parameters_eq, select_sql_eq, ensure_prepared_log]
    unfold columns_of values_of after_load Base.id
    dsimp only
    unfold Base.id at hid1
    rw [hid1]
    simp
  · rw [hsave]
    rfl
  · rw [hsave]
    rfl
  · intro m
    have hf : fetched T { r with attributes_ := m } log = fetched T r log := by
      unfold fetched
      rw [ensure_prepared_with_attributes]
      rfl
    have hsave1 := save_of_not_loaded T { r with attributes_ := m } log hid hs
      (by rw [hf]; exact hrow)
    rw [hsave1, hsave, hf, ensure_prepared_with_attributes]
    rfl

/-- C20 at `Person(42)` initialised with `{name: "x"}` over a store whose row 42
is `{name: "Bob"}`: the save selects by id and then updates with "Bob" and 42;
"x" is not written. -/
theorem C20_witness_record42_init :
    record42_init.id ≠ ACTIVE_RECORD_UNSAVED ∧ record42_init.state_ ≠ State.loaded ∧
    record42_init.attributes_.entries = [("name", Attribute.text "x")] ∧
    (save (Person 7 true row_bob) record42_init []).log =
      [Call.select_one "SELECT * FROM people WHERE id = ?" [Attribute.integer 42],
       Call.execute "UPDATE people SET name = ? WHERE id = ?;"
        [Attribute.text "Bob", Attribute.integer 42]] :=
  ⟨by decide, by decide, by decide,
   (C20_save_of_unloaded_writes_fetched_row (Person 7 true row_bob) record42_init []
      (by decide) (by decide) rfl).1.trans (by decide)⟩

end ActiveRecord
